import Mathlib

/-!
# Verification of the beam analysis engine (`src/utils/beamCalculations.ts`)

Shallow embedding of the beam-analysis pipeline. Modelling choices:

* JavaScript numbers are modelled as exact rationals (`ℚ`); division by zero
  in `ℚ` yields `0` where JS would produce `±Infinity`/`NaN`.  Where a claim
  is specifically about a division blowing up, an instrumented `Option ℚ`
  variant (`…Checked`) makes the non-finite outcome observable as `none`.
* `Math.sin`/`Math.cos` applied to `theta_deg * Math.PI / 180` are abstracted
  as an arbitrary `Trig` parameter whose `sinDeg`/`cosDeg` map an angle in
  degrees to its sine/cosine; no claim depends on concrete trig values.
* TypeScript optional fields become `Option`; the JS idiom `v || d` on an
  optional number (where both `undefined` and `0` are falsy) is `jsOr`.
* The JS `Set` insertion + numeric sort in `generateEvents` is modelled as
  `dedup` followed by `insertionSort`: both produce the sorted list of the
  distinct inserted values.
-/

inductive SupportType
  | pinRoller
  | fixed
deriving DecidableEq, Repr

inductive FixedPos
  | left
  | right
deriving DecidableEq, Repr

/-- `Support` from `types/beam.ts`: a tag plus optional position fields. -/
structure Support where
  stype : SupportType
  pin_x : Option ℚ := none
  roller_x : Option ℚ := none
  fixed_pos : Option FixedPos := none
deriving DecidableEq, Repr

structure PointLoad where
  label : String := ""
  x : ℚ
  P : ℚ
deriving DecidableEq, Repr

structure AngledLoad where
  label : String := ""
  x : ℚ
  P : ℚ
  theta_deg : ℚ
deriving DecidableEq, Repr

structure UDLLoad where
  label : String := ""
  a : ℚ
  b : ℚ
  w : ℚ
deriving DecidableEq, Repr

structure UVLLoad where
  label : String := ""
  a : ℚ
  b : ℚ
  w1 : ℚ
  w2 : ℚ
deriving DecidableEq, Repr

structure MomentLoad where
  label : String := ""
  x : ℚ
  M : ℚ
deriving DecidableEq, Repr

structure Loads where
  point : List PointLoad
  angled : List AngledLoad
  udl : List UDLLoad
  uvl : List UVLLoad
  moment : List MomentLoad
deriving DecidableEq, Repr

inductive RType
  | vertical
  | momentR
  | horizontal
deriving DecidableEq, Repr

/-- `Reaction` from `types/beam.ts` (optional-field record). -/
structure Reaction where
  rtype : RType
  atSupport : String
  x : Option ℚ := none
  R : Option ℚ := none
  M : Option ℚ := none
  H : Option ℚ := none
deriving DecidableEq, Repr

inductive SegType
  | const
  | linear
  | quadratic
  | cubic
deriving DecidableEq, Repr

/-- `DiagramSegment` from `types/beam.ts`. `coeffs` are over `dx = x - a`. -/
structure DiagramSegment where
  a : ℚ
  b : ℚ
  type : SegType
  coeffs : Option (List ℚ) := none
  V_a : Option ℚ := none
  V_b : Option ℚ := none
  M_a : Option ℚ := none
  M_b : Option ℚ := none
deriving DecidableEq, Repr

structure ExtremaPositions where
  Vmax_pos : ℚ
  Vmin_pos : ℚ
  Mmax_pos : ℚ
  Mmin_pos : ℚ
deriving DecidableEq, Repr

/-- Extrema record.  The JS code initialises the running maxima with
`-Infinity`/`Infinity`; that pre-first-update state is modelled as `none`. -/
structure Extrema where
  Vmax : Option ℚ
  Vmin : Option ℚ
  Mmax : Option ℚ
  Mmin : Option ℚ
  positions : ExtremaPositions
deriving DecidableEq, Repr

structure AnalysisResult where
  reactions : List Reaction
  events : List ℚ
  V_segments : List DiagramSegment
  M_segments : List DiagramSegment
  extrema : Extrema
  isValid : Bool
  error : Option String := none
deriving DecidableEq, Repr

structure BeamUnits where
  length : String
  force : String
deriving DecidableEq, Repr

structure BeamData where
  length : ℚ
  units : BeamUnits
deriving DecidableEq, Repr

/-- Abstract degree-based trig: `sinDeg θ` stands for `Math.sin(θ*Math.PI/180)`. -/
structure Trig where
  sinDeg : ℚ → ℚ
  cosDeg : ℚ → ℚ

/-- A fixed trig interpretation used for concrete inputs without angled loads. -/
def zeroTrig : Trig := ⟨fun _ => 0, fun _ => 0⟩

/-- JS `o || d` for an optional number: `undefined` and `0` are both falsy. -/
def jsOr (o : Option ℚ) (d : ℚ) : ℚ :=
  match o with
  | none => d
  | some v => if v = 0 then d else v

/-- The `1e-10` tolerance used by the engine's guards. -/
def eps10 : ℚ := 1 / 10000000000

def BASE_UNITS_length : String := "m"

def BASE_UNITS_force : String := "N"

/-- `LENGTH_CONVERSIONS[u] || 1`: factor to metres, unknown units fall back to 1. -/
def lengthFactor (u : String) : ℚ :=
  if u = "m" then 1 else if u = "mm" then 1 / 1000 else if u = "ft" then 3048 / 10000 else 1

/-- `FORCE_CONVERSIONS[u] || 1`: factor to newtons, unknown units fall back to 1. -/
def forceFactor (u : String) : ℚ :=
  if u = "N" then 1 else if u = "kN" then 1000 else if u = "kips" then 444822 / 100 else 1

def convertLength (value : ℚ) (fromUnit toUnit : String) : ℚ :=
  value * lengthFactor fromUnit / lengthFactor toUnit

def convertForce (value : ℚ) (fromUnit toUnit : String) : ℚ :=
  value * forceFactor fromUnit / forceFactor toUnit

def convertLoadsToBaseUnits (loads : Loads) (units : BeamUnits) : Loads :=
  { point := loads.point.map fun l =>
      { l with x := convertLength l.x units.length BASE_UNITS_length,
               P := convertForce l.P units.force BASE_UNITS_force }
    angled := loads.angled.map fun l =>
      { l with x := convertLength l.x units.length BASE_UNITS_length,
               P := convertForce l.P units.force BASE_UNITS_force }
    udl := loads.udl.map fun l =>
      { l with a := convertLength l.a units.length BASE_UNITS_length,
               b := convertLength l.b units.length BASE_UNITS_length,
               w := convertForce l.w units.force BASE_UNITS_force /
                      convertLength 1 units.length BASE_UNITS_length }
    uvl := loads.uvl.map fun l =>
      { l with a := convertLength l.a units.length BASE_UNITS_length,
               b := convertLength l.b units.length BASE_UNITS_length,
               w1 := convertForce l.w1 units.force BASE_UNITS_force /
                       convertLength 1 units.length BASE_UNITS_length,
               w2 := convertForce l.w2 units.force BASE_UNITS_force /
                       convertLength 1 units.length BASE_UNITS_length }
    moment := loads.moment.map fun l =>
      { l with x := convertLength l.x units.length BASE_UNITS_length,
               M := convertForce l.M units.force BASE_UNITS_force *
                      convertLength 1 units.length BASE_UNITS_length } }

def convertSupportsToBaseUnits (supports : Support) (lengthUnit : String) : Support :=
  match supports.stype with
  | .pinRoller =>
    { supports with
        pin_x := some (convertLength (jsOr supports.pin_x 0) lengthUnit BASE_UNITS_length),
        roller_x := some (convertLength (jsOr supports.roller_x 0) lengthUnit BASE_UNITS_length) }
  | .fixed => supports

def validateSupports (supports : Support) (length : ℚ) : Bool :=
  match supports.stype with
  | .pinRoller =>
    let pin_x := jsOr supports.pin_x 0
    let roller_x := jsOr supports.roller_x length
    decide (0 ≤ pin_x) && decide (roller_x ≤ length) && decide (pin_x ≠ roller_x)
  | .fixed => true

/-- The fixed support's position: `supports.fixed_pos === 'right' ? length : 0`. -/
def fixedXOf (supports : Support) (length : ℚ) : ℚ :=
  if supports.fixed_pos = some FixedPos.right then length else 0

def calculateReactions (tr : Trig) (loads : Loads) (supports : Support) (length : ℚ) :
    List Reaction :=
  match supports.stype with
  | .pinRoller =>
    let pin_x := jsOr supports.pin_x 0
    let roller_x := jsOr supports.roller_x length
    let totalVerticalForce :=
      (loads.point.map fun l => l.P).sum
      + (loads.angled.map fun l => l.P * tr.sinDeg l.theta_deg).sum
      + (loads.udl.map fun l => l.w * (l.b - l.a)).sum
      + (loads.uvl.map fun l =>
          if eps10 < |l.w1 + l.w2| then (l.w1 + l.w2) * (l.b - l.a) / 2 else 0).sum
    let totalMomentAboutPin :=
      (loads.point.map fun l => l.P * (l.x - pin_x)).sum
      + (loads.angled.map fun l => l.P * tr.sinDeg l.theta_deg * (l.x - pin_x)).sum
      + (loads.udl.map fun l => l.w * (l.b - l.a) * ((l.a + l.b) / 2 - pin_x)).sum
      + (loads.uvl.map fun l =>
          if eps10 < |l.w1 + l.w2| then
            (l.w1 + l.w2) * (l.b - l.a) / 2 *
              (l.a + (l.b - l.a) * (l.w1 + 2 * l.w2) / (3 * (l.w1 + l.w2)) - pin_x)
          else 0).sum
    let totalHorizontalForce := (loads.angled.map fun l => l.P * tr.cosDeg l.theta_deg).sum
    let rollerReaction := totalMomentAboutPin / (roller_x - pin_x)
    let pinReaction := totalVerticalForce - rollerReaction
    [{ rtype := .vertical, atSupport := "pin", x := some pin_x, R := some pinReaction },
     { rtype := .vertical, atSupport := "roller", x := some roller_x, R := some rollerReaction }]
    ++ (if eps10 < |totalHorizontalForce| then
          [{ rtype := RType.horizontal, atSupport := "pin", H := some (-totalHorizontalForce) }]
        else [])
  | .fixed =>
    let fixed_x := fixedXOf supports length
    let totalVerticalForce :=
      (loads.point.map fun l => l.P).sum
      + (loads.angled.map fun l => l.P * tr.sinDeg l.theta_deg).sum
      + (loads.udl.map fun l => l.w * (l.b - l.a)).sum
      + (loads.uvl.map fun l =>
          if eps10 < |l.w1 + l.w2| then (l.w1 + l.w2) * (l.b - l.a) / 2 else 0).sum
    let totalMomentAboutFixed :=
      (loads.point.map fun l => l.P * (l.x - fixed_x)).sum
      + (loads.angled.map fun l => l.P * tr.sinDeg l.theta_deg * (l.x - fixed_x)).sum
      + (loads.udl.map fun l => l.w * (l.b - l.a) * ((l.a + l.b) / 2 - fixed_x)).sum
      + (loads.uvl.map fun l =>
          if eps10 < |l.w1 + l.w2| then
            (l.w1 + l.w2) * (l.b - l.a) / 2 *
              (l.a + (l.b - l.a) * (l.w1 + 2 * l.w2) / (3 * (l.w1 + l.w2)) - fixed_x)
          else 0).sum
      + (loads.moment.map fun l => l.M).sum
    let totalHorizontalForce := (loads.angled.map fun l => l.P * tr.cosDeg l.theta_deg).sum
    let fixedReaction := -totalVerticalForce
    let fixedMoment := -totalMomentAboutFixed
    [{ rtype := .vertical, atSupport := "fixed", x := some fixed_x, R := some fixedReaction },
     { rtype := .momentR, atSupport := "fixed", x := some fixed_x, M := some fixedMoment }]
    ++ (if eps10 < |totalHorizontalForce| then
          [{ rtype := RType.horizontal, atSupport := "fixed", H := some (-totalHorizontalForce) }]
        else [])

/-- Support positions inserted into the event set. -/
def supportEventList (supports : Support) (length : ℚ) : List ℚ :=
  match supports.stype with
  | .pinRoller => [jsOr supports.pin_x 0, jsOr supports.roller_x length]
  | .fixed => [fixedXOf supports length]

/-- All x positions inserted into the event `Set`, in insertion order. -/
def eventList (loads : Loads) (supports : Support) (length : ℚ) : List ℚ :=
  [0, length] ++ supportEventList supports length
    ++ loads.point.map (fun l => l.x)
    ++ loads.angled.map (fun l => l.x)
    ++ (loads.udl.map fun l => [l.a, l.b]).flatten
    ++ (loads.uvl.map fun l => [l.a, l.b]).flatten
    ++ loads.moment.map (fun l => l.x)

/-- `Array.from(events).sort((a,b) => a-b)`: the sorted list of distinct events. -/
def generateEvents (loads : Loads) (supports : Support) (length : ℚ) : List ℚ :=
  List.insertionSort (· ≤ ·) (eventList loads supports length).dedup

def pointShearTerm (a : ℚ) (l : PointLoad) : ℚ :=
  if l.x ≤ a then -l.P else 0

def angledShearTerm (tr : Trig) (a : ℚ) (l : AngledLoad) : ℚ :=
  if l.x ≤ a then -(l.P * tr.sinDeg l.theta_deg) else 0

def udlShearTerm (a : ℚ) (l : UDLLoad) : ℚ :=
  if l.b ≤ a then -(l.w * (l.b - l.a))
  else if l.a < a then -(l.w * (a - l.a))
  else 0

def uvlShearTerm (a : ℚ) (l : UVLLoad) : ℚ :=
  if l.b ≤ a then -((l.w1 + l.w2) * (l.b - l.a) / 2)
  else if l.a < a then
    let x_rel := a - l.a
    let L_total := l.b - l.a
    let w_at_a := l.w1 + (l.w2 - l.w1) * x_rel / L_total
    let out := -((l.w1 + w_at_a) * x_rel / 2)
    out
  else 0

def reactShearTerm (a : ℚ) (r : Reaction) : ℚ :=
  match r.rtype, r.x with
  | .vertical, some x => if x ≤ a then r.R.getD 0 else 0
  | _, _ => 0

/-- Shear at the start of a segment: the accumulation loop of `calculateShearSegments`. -/
def shearAt (tr : Trig) (loads : Loads) (reactions : List Reaction) (a : ℚ) : ℚ :=
  (reactions.map (reactShearTerm a)).sum
  + (loads.point.map (pointShearTerm a)).sum
  + (loads.angled.map (angledShearTerm tr a)).sum
  + (loads.udl.map (udlShearTerm a)).sum
  + (loads.uvl.map (uvlShearTerm a)).sum

/-- `load.a < b && load.b > a`: the distributed load overlaps the open interval. -/
def udlActive (a b : ℚ) (l : UDLLoad) : Bool :=
  decide (l.a < b) && decide (a < l.b)

def uvlActive (a b : ℚ) (l : UVLLoad) : Bool :=
  decide (l.a < b) && decide (a < l.b)

/-- One iteration of the segment loop in `calculateShearSegments`: the `forEach`
flag/overwrite pattern means the LAST active distributed load of each list wins. -/
def shearSegOf (tr : Trig) (loads : Loads) (reactions : List Reaction) (p : ℚ × ℚ) :
    DiagramSegment :=
  let a := p.1
  let b := p.2
  let Va := shearAt tr loads reactions a
  match (loads.uvl.filter (uvlActive a b)).getLast? with
  | some u =>
    let uvlLength := u.b - u.a
    let segStart := max u.a a
    let segEnd := min u.b b
    let x1_rel := (segStart - u.a) / uvlLength
    let x2_rel := (segEnd - u.a) / uvlLength
    let uvlW1 := u.w1 + (u.w2 - u.w1) * x1_rel
    let uvlW2 := u.w1 + (u.w2 - u.w1) * x2_rel
    let slope := (uvlW2 - uvlW1) / (b - a)
    let dx := b - a
    { a := a, b := b, type := .quadratic, coeffs := some [Va, -uvlW1, -(slope / 2)],
      V_a := some Va, V_b := some (Va + -uvlW1 * dx + -(slope / 2) * dx * dx) }
  | none =>
    match (loads.udl.filter (udlActive a b)).getLast? with
    | some u =>
      { a := a, b := b, type := .linear, coeffs := some [Va, -u.w],
        V_a := some Va, V_b := some (Va + -u.w * (b - a)) }
    | none =>
      { a := a, b := b, type := .const, coeffs := some [Va], V_a := some Va, V_b := some Va }

def calculateShearSegments (tr : Trig) (loads : Loads) (reactions : List Reaction)
    (events : List ℚ) (length : ℚ) : List DiagramSegment :=
  (events.zip events.tail).map (shearSegOf tr loads reactions)

def pointMomentTerm (a : ℚ) (l : PointLoad) : ℚ :=
  if l.x < a then -(l.P * (a - l.x)) else 0

def angledMomentTerm (tr : Trig) (a : ℚ) (l : AngledLoad) : ℚ :=
  if l.x < a then -(l.P * tr.sinDeg l.theta_deg * (a - l.x)) else 0

def udlMomentTerm (a : ℚ) (l : UDLLoad) : ℚ :=
  if l.b ≤ a then -(l.w * (l.b - l.a) * (a - (l.a + l.b) / 2))
  else if l.a < a ∧ a < l.b then -(l.w * (a - l.a) * (a - l.a) / 2)
  else 0

def uvlMomentTerm (a : ℚ) (l : UVLLoad) : ℚ :=
  if l.b ≤ a then
    let R := (l.w1 + l.w2) * (l.b - l.a) / 2
    let L := l.b - l.a
    let xR := l.a + L * (l.w1 + 2 * l.w2) / (3 * (l.w1 + l.w2))
    let out := -(R * (a - xR))
    out
  else if l.a < a ∧ a < l.b then
    let L_active := a - l.a
    let w_at_a := l.w1 + (l.w2 - l.w1) * L_active / (l.b - l.a)
    let R_active := (l.w1 + w_at_a) * L_active / 2
    let xR := l.a + L_active * (l.w1 + 2 * w_at_a) / (3 * (l.w1 + w_at_a))
    let out := -(R_active * (a - xR))
    out
  else 0

def momentLoadTerm (a : ℚ) (l : MomentLoad) : ℚ :=
  if l.x ≤ a then l.M else 0

def reactMomentTerm (a : ℚ) (r : Reaction) : ℚ :=
  (match r.rtype, r.x with
   | .vertical, some x => if x < a then r.R.getD 0 * (a - x) else 0
   | _, _ => 0)
  + (match r.rtype, r.x with
     | .momentR, some x => if x ≤ a then r.M.getD 0 else 0
     | _, _ => 0)

/-- Moment at the start of a segment: the accumulation loop of `calculateMomentSegments`. -/
def momentStartAt (tr : Trig) (loads : Loads) (reactions : List Reaction) (a : ℚ) : ℚ :=
  (reactions.map (reactMomentTerm a)).sum
  + (loads.point.map (pointMomentTerm a)).sum
  + (loads.angled.map (angledMomentTerm tr a)).sum
  + (loads.udl.map (udlMomentTerm a)).sum
  + (loads.uvl.map (uvlMomentTerm a)).sum
  + (loads.moment.map (momentLoadTerm a)).sum

/-- `segment.coeffs?.[i] || 0`. -/
def coeffAt (s : DiagramSegment) (i : ℕ) : ℚ :=
  (s.coeffs.getD []).getD i 0

/-- One iteration of the segment loop in `calculateMomentSegments`.  A `cubic`
shear segment matches none of the source's branches, leaving the initial
`'linear'` type and empty coefficient array (whose JS evaluation would be
`NaN`, modelled as `0`); that case is unreachable from the shear builder. -/
def momentSegOf (tr : Trig) (loads : Loads) (reactions : List Reaction)
    (pv : (ℚ × ℚ) × DiagramSegment) : DiagramSegment :=
  let a := pv.1.1
  let b := pv.1.2
  let vseg := pv.2
  let Ma := momentStartAt tr loads reactions a
  let dx := b - a
  match vseg.type with
  | .const =>
    { a := a, b := b, type := .linear, coeffs := some [Ma, vseg.V_a.getD 0],
      M_a := some Ma, M_b := some (Ma + vseg.V_a.getD 0 * dx) }
  | .linear =>
    let c1 := coeffAt vseg 1
    { a := a, b := b, type := .quadratic, coeffs := some [Ma, vseg.V_a.getD 0, c1 / 2],
      M_a := some Ma, M_b := some (Ma + vseg.V_a.getD 0 * dx + c1 / 2 * dx * dx) }
  | .quadratic =>
    let c0 := coeffAt vseg 0
    let c1 := coeffAt vseg 1
    let c2 := coeffAt vseg 2
    { a := a, b := b, type := .cubic, coeffs := some [Ma, c0, c1 / 2, c2 / 3],
      M_a := some Ma,
      M_b := some (Ma + c0 * dx + c1 / 2 * dx * dx + c2 / 3 * dx * dx * dx) }
  | .cubic =>
    { a := a, b := b, type := .linear, coeffs := some [], M_a := some Ma, M_b := some 0 }

def calculateMomentSegments (tr : Trig) (V_segments : List DiagramSegment) (loads : Loads)
    (reactions : List Reaction) (events : List ℚ) (length : ℚ) : List DiagramSegment :=
  ((events.zip events.tail).zip V_segments).map (momentSegOf tr loads reactions)

def calculateMomentAtPoint (tr : Trig) (x : ℚ) (loads : Loads) (reactions : List Reaction) :
    ℚ :=
  (reactions.map fun r =>
    match r.rtype, r.x with
    | .vertical, some rx => if rx < x then r.R.getD 0 * (x - rx) else 0
    | _, _ => 0).sum
  + (loads.point.map fun l => if l.x < x then -(l.P * (x - l.x)) else 0).sum
  + (loads.angled.map fun l =>
      if l.x < x then -(l.P * tr.sinDeg l.theta_deg * (x - l.x)) else 0).sum
  + (loads.udl.map fun l =>
      if l.b < x then -(l.w * (l.b - l.a) * (x - (l.a + l.b) / 2))
      else if l.a < x then
        let L_active := x - l.a
        let out := -(l.w * L_active * (x - (l.a + L_active / 2)))
        out
      else 0).sum
  + (loads.uvl.map fun l =>
      if l.b < x then
        let R := (l.w1 + l.w2) * (l.b - l.a) / 2
        let xR := l.a + (l.w1 + 2 * l.w2) / (3 * (l.w1 + l.w2)) * (l.b - l.a)
        let out := -(R * (x - xR))
        out
      else if l.a < x then
        let L_active := x - l.a
        let w1_at_x := l.w1 + (l.w2 - l.w1) * L_active / (l.b - l.a)
        let R_active := (l.w1 + w1_at_x) * L_active / 2
        let xR_active := l.a + (l.w1 + 2 * w1_at_x) / (3 * (l.w1 + w1_at_x)) * L_active
        let out := -(R_active * (x - xR_active))
        out
      else 0).sum
  + (loads.moment.map fun l => if l.x < x then l.M else 0).sum

structure ExtremaAcc where
  Vmax : Option ℚ
  Vmin : Option ℚ
  Mmax : Option ℚ
  Mmin : Option ℚ
  Vmax_pos : ℚ
  Vmin_pos : ℚ
  Mmax_pos : ℚ
  Mmin_pos : ℚ
deriving DecidableEq, Repr

/-- `v > cur` where `cur` may still be the initial `-Infinity` (`none`). -/
def gtOpt (v : ℚ) (cur : Option ℚ) : Bool :=
  match cur with
  | none => true
  | some c => decide (c < v)

/-- `v < cur` where `cur` may still be the initial `Infinity` (`none`). -/
def ltOpt (v : ℚ) (cur : Option ℚ) : Bool :=
  match cur with
  | none => true
  | some c => decide (v < c)

def stepVSeg (acc : ExtremaAcc) (s : DiagramSegment) : ExtremaAcc :=
  let acc := if gtOpt (s.V_a.getD 0) acc.Vmax then
      { acc with Vmax := some (s.V_a.getD 0), Vmax_pos := s.a } else acc
  let acc := if ltOpt (s.V_a.getD 0) acc.Vmin then
      { acc with Vmin := some (s.V_a.getD 0), Vmin_pos := s.a } else acc
  let acc := if gtOpt (s.V_b.getD 0) acc.Vmax then
      { acc with Vmax := some (s.V_b.getD 0), Vmax_pos := s.b } else acc
  let acc := if ltOpt (s.V_b.getD 0) acc.Vmin then
      { acc with Vmin := some (s.V_b.getD 0), Vmin_pos := s.b } else acc
  acc

def stepMSeg (acc : ExtremaAcc) (s : DiagramSegment) : ExtremaAcc :=
  let acc := if gtOpt (s.M_a.getD 0) acc.Mmax then
      { acc with Mmax := some (s.M_a.getD 0), Mmax_pos := s.a } else acc
  let acc := if ltOpt (s.M_a.getD 0) acc.Mmin then
      { acc with Mmin := some (s.M_a.getD 0), Mmin_pos := s.a } else acc
  let acc := if gtOpt (s.M_b.getD 0) acc.Mmax then
      { acc with Mmax := some (s.M_b.getD 0), Mmax_pos := s.b } else acc
  let acc := if ltOpt (s.M_b.getD 0) acc.Mmin then
      { acc with Mmin := some (s.M_b.getD 0), Mmin_pos := s.b } else acc
  acc

def stepInterior (tr : Trig) (loads : Loads) (reactions : List Reaction)
    (acc : ExtremaAcc) (s : DiagramSegment) : ExtremaAcc :=
  let acc :=
    if s.type = SegType.linear ∧ s.V_a.getD 0 * s.V_b.getD 0 < 0 then
      let slope := (s.V_b.getD 0 - s.V_a.getD 0) / (s.b - s.a)
      let zeroShearX := s.a - s.V_a.getD 0 / slope
      let m := calculateMomentAtPoint tr zeroShearX loads reactions
      let acc := if gtOpt m acc.Mmax then
          { acc with Mmax := some m, Mmax_pos := zeroShearX } else acc
      let acc := if ltOpt m acc.Mmin then
          { acc with Mmin := some m, Mmin_pos := zeroShearX } else acc
      acc
    else acc
  if s.type = SegType.quadratic then
    let midPoint := (s.a + s.b) / 2
    let m := calculateMomentAtPoint tr midPoint loads reactions
    let acc := if gtOpt m acc.Mmax then
        { acc with Mmax := some m, Mmax_pos := midPoint } else acc
    let acc := if ltOpt m acc.Mmin then
        { acc with Mmin := some m, Mmin_pos := midPoint } else acc
    acc
  else acc

def findExtrema (tr : Trig) (V_segments M_segments : List DiagramSegment) (loads : Loads)
    (reactions : List Reaction) (length : ℚ) : Extrema :=
  let acc0 : ExtremaAcc := ⟨none, none, none, none, 0, 0, 0, 0⟩
  let acc1 := V_segments.foldl stepVSeg acc0
  let acc2 := M_segments.foldl stepMSeg acc1
  let acc3 := V_segments.foldl (stepInterior tr loads reactions) acc2
  { Vmax := acc3.Vmax, Vmin := acc3.Vmin, Mmax := acc3.Mmax, Mmin := acc3.Mmin,
    positions := ⟨acc3.Vmax_pos, acc3.Vmin_pos, acc3.Mmax_pos, acc3.Mmin_pos⟩ }

def convertReactionsToDisplayUnits (reactions : List Reaction) (units : BeamUnits) :
    List Reaction :=
  reactions.map fun r =>
    { r with
        x := r.x.map fun v => convertLength v BASE_UNITS_length units.length,
        R := r.R.map fun v => convertForce v BASE_UNITS_force units.force,
        M := r.M.map fun v =>
          convertForce v BASE_UNITS_force units.force *
            convertLength 1 BASE_UNITS_length units.length,
        H := r.H.map fun v => convertForce v BASE_UNITS_force units.force }

/-- Display conversion of segments.  Note the source spreads `...segment`, so
`coeffs` (and `type`) are kept in BASE units — only the listed fields convert. -/
def convertSegmentsToDisplayUnits (segments : List DiagramSegment) (units : BeamUnits) :
    List DiagramSegment :=
  segments.map fun s =>
    { s with
        a := convertLength s.a BASE_UNITS_length units.length,
        b := convertLength s.b BASE_UNITS_length units.length,
        V_a := s.V_a.map fun v => convertForce v BASE_UNITS_force units.force,
        V_b := s.V_b.map fun v => convertForce v BASE_UNITS_force units.force,
        M_a := s.M_a.map fun v =>
          convertForce v BASE_UNITS_force units.force *
            convertLength 1 BASE_UNITS_length units.length,
        M_b := s.M_b.map fun v =>
          convertForce v BASE_UNITS_force units.force *
            convertLength 1 BASE_UNITS_length units.length }

def convertExtremaToDisplayUnits (extrema : Extrema) (units : BeamUnits) : Extrema :=
  { Vmax := extrema.Vmax.map fun v => convertForce v BASE_UNITS_force units.force,
    Vmin := extrema.Vmin.map fun v => convertForce v BASE_UNITS_force units.force,
    Mmax := extrema.Mmax.map fun v =>
      convertForce v BASE_UNITS_force units.force *
        convertLength 1 BASE_UNITS_length units.length,
    Mmin := extrema.Mmin.map fun v =>
      convertForce v BASE_UNITS_force units.force *
        convertLength 1 BASE_UNITS_length units.length,
    positions :=
      ⟨convertLength extrema.positions.Vmax_pos BASE_UNITS_length units.length,
       convertLength extrema.positions.Vmin_pos BASE_UNITS_length units.length,
       convertLength extrema.positions.Mmax_pos BASE_UNITS_length units.length,
       convertLength extrema.positions.Mmin_pos BASE_UNITS_length units.length⟩ }

def createErrorResult (error : String) : AnalysisResult :=
  { reactions := [], events := [], V_segments := [], M_segments := [],
    extrema := { Vmax := some 0, Vmin := some 0, Mmax := some 0, Mmin := some 0,
                 positions := ⟨0, 0, 0, 0⟩ },
    isValid := false, error := some error }

def calculateBeamAnalysis (tr : Trig) (beamData : BeamData) (supports : Support)
    (loads : Loads) : AnalysisResult :=
  if beamData.length ≤ 0 then createErrorResult ("Beam length must be greater than 0")
  else
    let baseLength := convertLength beamData.length beamData.units.length BASE_UNITS_length
    let baseLoads := convertLoadsToBaseUnits loads beamData.units
    let baseSupports := convertSupportsToBaseUnits supports beamData.units.length
    if !validateSupports baseSupports baseLength then
      createErrorResult ("Invalid support configuration")
    else
      let reactions := calculateReactions tr baseLoads baseSupports baseLength
      let events := generateEvents baseLoads baseSupports baseLength
      let V_segments := calculateShearSegments tr baseLoads reactions events baseLength
      let M_segments :=
        calculateMomentSegments tr V_segments baseLoads reactions events baseLength
      let extrema := findExtrema tr V_segments M_segments baseLoads reactions baseLength
      { reactions := convertReactionsToDisplayUnits reactions beamData.units,
        events := events.map fun x => convertLength x BASE_UNITS_length beamData.units.length,
        V_segments := convertSegmentsToDisplayUnits V_segments beamData.units,
        M_segments := convertSegmentsToDisplayUnits M_segments beamData.units,
        extrema := convertExtremaToDisplayUnits extrema beamData.units,
        isValid := true, error := none }

/-- Per-segment sample count variable (`numPoints` in `generateShearForceData`). -/
def numPointsFor (t : SegType) : ℕ :=
  match t with
  | .linear => 10
  | .quadratic => 20
  | _ => 2

/-- `Math.round(q * 1000) / 1000` (JS rounds half toward `+∞`, as does `round`). -/
def round3 (q : ℚ) : ℚ :=
  ((round (q * 1000) : ℤ) : ℚ) / 1000

/-- The sample points one segment contributes in `generateShearForceData`:
the loop runs `i = 0 .. numPoints` INCLUSIVE, so `numPoints + 1` points. -/
def sampleSeg (s : DiagramSegment) : List (ℚ × ℚ) :=
  let numPoints := numPointsFor s.type
  let segmentLength := s.b - s.a
  (List.range (numPoints + 1)).map fun (i : ℕ) =>
    let t : ℚ := (i : ℚ) / (numPoints : ℚ)
    let x := s.a + segmentLength * t
    let dx := x - s.a
    let shearForce :=
      match s.coeffs with
      | some cs =>
        match s.type with
        | .const => cs.getD 0 0
        | .linear => cs.getD 0 0 + cs.getD 1 0 * dx
        | .quadratic => cs.getD 0 0 + cs.getD 1 0 * dx + cs.getD 2 0 * dx * dx
        | .cubic => 0
      | none => s.V_a.getD 0 + (s.V_b.getD 0 - s.V_a.getD 0) * t
    (round3 x, round3 shearForce)

/-- All data points before the near-duplicate filter. -/
def rawShearPoints (segments : List DiagramSegment) : List (ℚ × ℚ) :=
  (segments.map sampleSeg).flatten

/-- `dataPoints.filter((p, i, arr) => i === 0 || |p.x - arr[i-1].x| > 0.001)`;
the predecessor is taken in the ORIGINAL array. -/
def collapseNearDuplicates (pts : List (ℚ × ℚ)) : List (ℚ × ℚ) :=
  ((pts.zip (none :: pts.map some)).filter fun q =>
    match q.2 with
    | none => true
    | some p => decide ((1 : ℚ) / 1000 < |q.1.1 - p.1|)).map fun q => q.1

def generateShearForceData (analysisResult : AnalysisResult) : List (ℚ × ℚ) :=
  collapseNearDuplicates (rawShearPoints analysisResult.V_segments)

/-- Instrumented UVL term of the moment-segment accumulation: `none` models the
JS non-finite poisoning (`±Infinity`/`NaN`) that occurs when the trapezoid
centroid division `/(3*(w1+w2))` is evaluated although `|w1+w2| ≤ 1e-10`.
Unlike `calculateReactions`, `calculateMomentSegments` has NO guard here. -/
def uvlMomentTermChecked (a : ℚ) (l : UVLLoad) : Option ℚ :=
  if l.b ≤ a then
    if eps10 < |l.w1 + l.w2| then some (uvlMomentTerm a l) else none
  else if l.a < a ∧ a < l.b then
    let L_active := a - l.a
    let w_at_a := l.w1 + (l.w2 - l.w1) * L_active / (l.b - l.a)
    if eps10 < |l.w1 + w_at_a| then some (uvlMomentTerm a l) else none
  else some 0

/-- `momentStartAt` with the UVL centroid divisions instrumented (see
`uvlMomentTermChecked`). -/
def momentStartAtChecked (tr : Trig) (loads : Loads) (reactions : List Reaction) (a : ℚ) :
    Option ℚ :=
  (loads.uvl.mapM (uvlMomentTermChecked a)).map fun ts =>
    (reactions.map (reactMomentTerm a)).sum
    + (loads.point.map (pointMomentTerm a)).sum
    + (loads.angled.map (angledMomentTerm tr a)).sum
    + (loads.udl.map (udlMomentTerm a)).sum
    + ts.sum
    + (loads.moment.map (momentLoadTerm a)).sum

/-- Instrumented UVL term of `calculateMomentAtPoint` (strict `<` conditions
as in the source; again NO guard on the centroid division). -/
def uvlPointTermChecked (x : ℚ) (l : UVLLoad) : Option ℚ :=
  if l.b < x then
    if eps10 < |l.w1 + l.w2| then
      some (-(((l.w1 + l.w2) * (l.b - l.a) / 2) *
        (x - (l.a + (l.w1 + 2 * l.w2) / (3 * (l.w1 + l.w2)) * (l.b - l.a)))))
    else none
  else if l.a < x then
    let L_active := x - l.a
    let w1_at_x := l.w1 + (l.w2 - l.w1) * L_active / (l.b - l.a)
    if eps10 < |l.w1 + w1_at_x| then
      some (-(((l.w1 + w1_at_x) * L_active / 2) *
        (x - (l.a + (l.w1 + 2 * w1_at_x) / (3 * (l.w1 + w1_at_x)) * L_active))))
    else none
  else some 0

/-- `calculateMomentAtPoint` with the UVL centroid divisions instrumented. -/
def calculateMomentAtPointChecked (tr : Trig) (x : ℚ) (loads : Loads)
    (reactions : List Reaction) : Option ℚ :=
  (loads.uvl.mapM (uvlPointTermChecked x)).map fun ts =>
    (reactions.map fun r =>
      match r.rtype, r.x with
      | .vertical, some rx => if rx < x then r.R.getD 0 * (x - rx) else 0
      | _, _ => 0).sum
    + (loads.point.map fun l => if l.x < x then -(l.P * (x - l.x)) else 0).sum
    + (loads.angled.map fun l =>
        if l.x < x then -(l.P * tr.sinDeg l.theta_deg * (x - l.x)) else 0).sum
    + (loads.udl.map fun l =>
        if l.b < x then -(l.w * (l.b - l.a) * (x - (l.a + l.b) / 2))
        else if l.a < x then
          let L_active := x - l.a
          let out := -(l.w * L_active * (x - (l.a + L_active / 2)))
          out
        else 0).sum
    + ts.sum
    + (loads.moment.map fun l => if l.x < x then l.M else 0).sum

/-! ## Concrete inputs used by the claims -/

/-- Scenario 1: 30 m beam, pin at 0, roller at 30, P = 60 kN down at 15. -/
def bdScenario1 : BeamData := ⟨30, ⟨"m", "kN"⟩⟩

def supScenario1 : Support := { stype := .pinRoller, pin_x := some 0, roller_x := some 30 }

def loadsScenario1 : Loads := ⟨[⟨"P1", 15, 60⟩], [], [], [], []⟩

/-- Scenario 4: 10 m cantilever fixed at the left, P = 20 kN down at 10. -/
def bdScenario4 : BeamData := ⟨10, ⟨"m", "kN"⟩⟩

def supScenario4 : Support := { stype := .fixed, fixed_pos := some .left }

def loadsScenario4 : Loads := ⟨[⟨"P1", 10, 20⟩], [], [], [], []⟩

def noLoads : Loads := ⟨[], [], [], [], []⟩

/-- Pin and roller both placed at x = 0 (the case `pin_x = roller_x = 0`). -/
def supCoincidentZero : Support := { stype := .pinRoller, pin_x := some 0, roller_x := some 0 }

def bdLen10 : BeamData := ⟨10, ⟨"m", "kN"⟩⟩

/-- Two overlapping UDLs (`[0,1]` and `[0,2]`, both w = 1) on a 2 m span. -/
def loadsOverlapUdl : Loads := ⟨[], [], [⟨"u1", 0, 1, 1⟩, ⟨"u2", 0, 2, 1⟩], [], []⟩

def supPin02 : Support := ⟨.pinRoller, some 0, some 2, none⟩

def reactionsOverlap : List Reaction := calculateReactions zeroTrig loadsOverlapUdl supPin02 2

def eventsOverlap : List ℚ := generateEvents loadsOverlapUdl supPin02 2

def vsegsOverlap : List DiagramSegment :=
  calculateShearSegments zeroTrig loadsOverlapUdl reactionsOverlap eventsOverlap 2

def msegsOverlap : List DiagramSegment :=
  calculateMomentSegments zeroTrig vsegsOverlap loadsOverlapUdl reactionsOverlap eventsOverlap 2

/-- A zero-sum UVL (`w1 = -1`, `w2 = 1` over `[0,1]`) on a 2 m pin+roller span. -/
def loadsUvlZeroSum : Loads := ⟨[], [], [], [⟨"v1", 0, 1, -1, 1⟩], []⟩

def reactionsUvlZeroSum : List Reaction := calculateReactions zeroTrig loadsUvlZeroSum supPin02 2

/-- A point load left of the beam (x = -5) on a 10 m pin+roller beam. -/
def loadsOutside : Loads := ⟨[⟨"P1", -5, 10⟩], [], [], [], []⟩

def supPin010 : Support := ⟨.pinRoller, some 0, some 10, none⟩

/-! ## Helper lemmas -/

def segC9 : DiagramSegment :=
  { a := 0, b := 1, type := SegType.linear, coeffs := some [1, 2],
    V_a := some 1, V_b := some 3, M_a := none, M_b := none }

def segC3a : DiagramSegment :=
  { a := 0, b := 1, type := SegType.linear, coeffs := some [0, 0],
    M_a := some 0, M_b := some 0 }

def segC3b : DiagramSegment :=
  { a := 1, b := 2, type := SegType.linear, coeffs := some [0, 0],
    M_a := some 0, M_b := some 0 }

lemma lengthFactor_pos (u : String) : 0 < lengthFactor u := by
  unfold lengthFactor
  split_ifs <;> norm_num

lemma forceFactor_pos (u : String) : 0 < forceFactor u := by
  unfold forceFactor
  split_ifs <;> norm_num

lemma lengthFactor_base : lengthFactor BASE_UNITS_length = 1 := by
  norm_num [BASE_UNITS_length, lengthFactor]

lemma forceFactor_base : forceFactor BASE_UNITS_force = 1 := by
  norm_num [BASE_UNITS_force, forceFactor]

lemma convertLength_to_base (v : ℚ) (u : String) :
    convertLength v u BASE_UNITS_length = v * lengthFactor u := by
  simp [convertLength, lengthFactor_base]

lemma jsOr_some_zero (v : ℚ) : jsOr (some v) 0 = v := by
  rcases eq_or_ne v 0 with h | h <;> simp [jsOr, h]

lemma jsOr_some_of_ne (v d : ℚ) (h : v ≠ 0) : jsOr (some v) d = v := by
  simp [jsOr, h]

/-! With no angled loads, the abstract trig functions are never applied, so the
whole pipeline is independent of the `Trig` interpretation. -/

lemma shearAt_zeroTrig (tr : Trig) (loads : Loads) (h : loads.angled = [])
    (R : List Reaction) (a : ℚ) : shearAt tr loads R a = shearAt zeroTrig loads R a := by
  simp [shearAt, h]

lemma momentStartAt_zeroTrig (tr : Trig) (loads : Loads) (h : loads.angled = [])
    (R : List Reaction) (a : ℚ) :
    momentStartAt tr loads R a = momentStartAt zeroTrig loads R a := by
  simp [momentStartAt, h]

lemma momentAtPoint_zeroTrig (tr : Trig) (loads : Loads) (h : loads.angled = [])
    (x : ℚ) (R : List Reaction) :
    calculateMomentAtPoint tr x loads R = calculateMomentAtPoint zeroTrig x loads R := by
  simp [calculateMomentAtPoint, h]

lemma calculateReactions_zeroTrig (tr : Trig) (loads : Loads) (h : loads.angled = [])
    (s : Support) (L : ℚ) :
    calculateReactions tr loads s L = calculateReactions zeroTrig loads s L := by
  rcases s with ⟨st, px, rx, fp⟩
  cases st <;> simp [calculateReactions, h]

lemma shearSegOf_zeroTrig (tr : Trig) (loads : Loads) (h : loads.angled = [])
    (R : List Reaction) :
    shearSegOf tr loads R = shearSegOf zeroTrig loads R := by
  funext p
  simp only [shearSegOf, shearAt_zeroTrig tr loads h]

lemma calculateShearSegments_zeroTrig (tr : Trig) (loads : Loads) (h : loads.angled = [])
    (R : List Reaction) (es : List ℚ) (L : ℚ) :
    calculateShearSegments tr loads R es L = calculateShearSegments zeroTrig loads R es L := by
  unfold calculateShearSegments
  rw [shearSegOf_zeroTrig tr loads h]

lemma momentSegOf_zeroTrig (tr : Trig) (loads : Loads) (h : loads.angled = [])
    (R : List Reaction) :
    momentSegOf tr loads R = momentSegOf zeroTrig loads R := by
  funext pv
  simp only [momentSegOf, momentStartAt_zeroTrig tr loads h]

lemma calculateMomentSegments_zeroTrig (tr : Trig) (loads : Loads) (h : loads.angled = [])
    (V : List DiagramSegment) (R : List Reaction) (es : List ℚ) (L : ℚ) :
    calculateMomentSegments tr V loads R es L =
      calculateMomentSegments zeroTrig V loads R es L := by
  unfold calculateMomentSegments
  rw [momentSegOf_zeroTrig tr loads h]

lemma stepInterior_zeroTrig (tr : Trig) (loads : Loads) (h : loads.angled = [])
    (R : List Reaction) :
    stepInterior tr loads R = stepInterior zeroTrig loads R := by
  funext acc s
  simp only [stepInterior, momentAtPoint_zeroTrig tr loads h]

lemma findExtrema_zeroTrig (tr : Trig) (loads : Loads) (h : loads.angled = [])
    (V M : List DiagramSegment) (R : List Reaction) (L : ℚ) :
    findExtrema tr V M loads R L = findExtrema zeroTrig V M loads R L := by
  unfold findExtrema
  rw [stepInterior_zeroTrig tr loads h]

lemma calculateBeamAnalysis_zeroTrig (tr : Trig) (bd : BeamData) (s : Support) (loads : Loads)
    (h : loads.angled = []) :
    calculateBeamAnalysis tr bd s loads = calculateBeamAnalysis zeroTrig bd s loads := by
  have hb : (convertLoadsToBaseUnits loads bd.units).angled = [] := by
    simp [convertLoadsToBaseUnits, h]
  unfold calculateBeamAnalysis
  simp only [calculateReactions_zeroTrig tr _ hb, calculateShearSegments_zeroTrig tr _ hb,
    calculateMomentSegments_zeroTrig tr _ hb, findExtrema_zeroTrig tr _ hb]

/-- Shared evaluation of scenario 1 at the `zeroTrig` interpretation. -/
lemma scenario1_eval :
    calculateBeamAnalysis zeroTrig bdScenario1 supScenario1 loadsScenario1 =
    { reactions := [{ rtype := .vertical, atSupport := "pin", x := some 0, R := some 30 },
                    { rtype := .vertical, atSupport := "roller", x := some 30, R := some 30 }],
      events := [0, 15, 30],
      V_segments := [{ a := 0, b := 15, type := .const, coeffs := some [30000],
                       V_a := some 30, V_b := some 30 },
                     { a := 15, b := 30, type := .const, coeffs := some [-30000],
                       V_a := some (-30), V_b := some (-30) }],
      M_segments := [{ a := 0, b := 15, type := .linear, coeffs := some [0, 30000],
                       M_a := some 0, M_b := some 450 },
                     { a := 15, b := 30, type := .linear, coeffs := some [450000, -30000],
                       M_a := some 450, M_b := some 0 }],
      extrema := { Vmax := some 30, Vmin := some (-30), Mmax := some 450, Mmin := some 0,
                   positions := ⟨0, 15, 15, 0⟩ },
      isValid := true, error := none } := by
  norm_num +decide [bdScenario1, supScenario1, loadsScenario1, calculateBeamAnalysis,
    createErrorResult, validateSupports, fixedXOf,
    calculateReactions, generateEvents, eventList, supportEventList,
    calculateShearSegments, shearSegOf, shearAt, pointShearTerm, angledShearTerm, udlShearTerm,
    uvlShearTerm, reactShearTerm, udlActive, uvlActive,
    calculateMomentSegments, momentSegOf, momentStartAt, pointMomentTerm, angledMomentTerm,
    udlMomentTerm, uvlMomentTerm, momentLoadTerm, reactMomentTerm, coeffAt,
    findExtrema, stepVSeg, stepMSeg, stepInterior, gtOpt, ltOpt, calculateMomentAtPoint,
    convertReactionsToDisplayUnits, convertSegmentsToDisplayUnits, convertExtremaToDisplayUnits,
    convertLoadsToBaseUnits, convertSupportsToBaseUnits, convertLength, convertForce,
    lengthFactor, forceFactor, BASE_UNITS_length, BASE_UNITS_force, jsOr, eps10, zeroTrig,
    List.dedup, List.insertionSort, List.orderedInsert, List.pwFilter]

/-! ## Claim theorems -/

/-- C1: for beam length 30 (m, kN), pin at 0, roller at 30 and a single point
load P = 60 at x = 15, the analysis is valid with pin reaction 30 and roller
reaction 30, Mmax = 450 attained at position 15, Vmax = 30 attained at some
position x < 15 (the result records the value 30 at x = 0), and Vmin = -30
attained at some position x > 15 (the result records the value -30 at x = 30:
the second segment carries V_b = -30 at its endpoint b = 30; its recorded
`Vmin_pos` is the segment start 15). -/
theorem scenario1_pin_roller_midspan (tr : Trig) :
    (calculateBeamAnalysis tr bdScenario1 supScenario1 loadsScenario1).isValid = true
    ∧ (calculateBeamAnalysis tr bdScenario1 supScenario1 loadsScenario1).reactions.map
        (fun r => (r.atSupport, r.R)) = [("pin", some 30), ("roller", some 30)]
    ∧ (calculateBeamAnalysis tr bdScenario1 supScenario1 loadsScenario1).extrema.Mmax = some 450
    ∧ (calculateBeamAnalysis tr bdScenario1 supScenario1
        loadsScenario1).extrema.positions.Mmax_pos = 15
    ∧ (calculateBeamAnalysis tr bdScenario1 supScenario1 loadsScenario1).extrema.Vmax = some 30
    ∧ (∃ s ∈ (calculateBeamAnalysis tr bdScenario1 supScenario1 loadsScenario1).V_segments,
        s.a < 15 ∧ s.V_a = some 30)
    ∧ (calculateBeamAnalysis tr bdScenario1 supScenario1 loadsScenario1).extrema.Vmin =
        some (-30)
    ∧ (∃ s ∈ (calculateBeamAnalysis tr bdScenario1 supScenario1 loadsScenario1).V_segments,
        15 < s.b ∧ s.V_b = some (-30)) := by
  rw [calculateBeamAnalysis_zeroTrig tr bdScenario1 supScenario1 loadsScenario1 rfl,
    scenario1_eval]
  refine ⟨rfl, by norm_num, rfl, rfl, rfl, ?_, rfl, ?_⟩
  · exact ⟨_, List.mem_cons_self _ _, by norm_num, rfl⟩
  · refine ⟨_, List.mem_cons_of_mem _ (List.mem_cons_self _ _), by norm_num, rfl⟩

/-- C2 (code bug): scenario 4 as computed by the code.  The fixed vertical
reaction is `-20` (the code sets `fixedReaction = -totalVerticalForce`, which
points DOWN for a downward load, violating vertical equilibrium), and the
moment segment runs from `-200` at x = 0 to `-400` at x = 10 — not to `0` as
the spec requires; a free cantilever end must carry zero bending moment. -/
theorem scenario4_fixed_cantilever_values :
    calculateBeamAnalysis zeroTrig bdScenario4 supScenario4 loadsScenario4 =
    { reactions := [{ rtype := .vertical, atSupport := "fixed", x := some 0, R := some (-20) },
                    { rtype := .momentR, atSupport := "fixed", x := some 0, M := some (-200) }],
      events := [0, 10],
      V_segments := [{ a := 0, b := 10, type := .const, coeffs := some [-20000],
                       V_a := some (-20), V_b := some (-20) }],
      M_segments := [{ a := 0, b := 10, type := .linear, coeffs := some [-200000, -20000],
                       M_a := some (-200), M_b := some (-400) }],
      extrema := { Vmax := some (-20), Vmin := some (-20), Mmax := some (-200),
                   Mmin := some (-400), positions := ⟨0, 0, 0, 10⟩ },
      isValid := true, error := none } := by
  norm_num +decide [bdScenario4, supScenario4, loadsScenario4, calculateBeamAnalysis,
    createErrorResult, validateSupports, fixedXOf,
    calculateReactions, generateEvents, eventList, supportEventList,
    calculateShearSegments, shearSegOf, shearAt, pointShearTerm, angledShearTerm, udlShearTerm,
    uvlShearTerm, reactShearTerm, udlActive, uvlActive,
    calculateMomentSegments, momentSegOf, momentStartAt, pointMomentTerm, angledMomentTerm,
    udlMomentTerm, uvlMomentTerm, momentLoadTerm, reactMomentTerm, coeffAt,
    findExtrema, stepVSeg, stepMSeg, stepInterior, gtOpt, ltOpt, calculateMomentAtPoint,
    convertReactionsToDisplayUnits, convertSegmentsToDisplayUnits, convertExtremaToDisplayUnits,
    convertLoadsToBaseUnits, convertSupportsToBaseUnits, convertLength, convertForce,
    lengthFactor, forceFactor, BASE_UNITS_length, BASE_UNITS_force, jsOr, eps10, zeroTrig,
    List.dedup, List.insertionSort, List.orderedInsert, List.pwFilter]

/-- C3 counterexample: two overlapping UDLs (`[0,1]` and `[0,2]`, both `w = 1`)
on a 2 m pin+roller beam.  No moment load exists (the moment list is empty),
yet segment 0 ends with `M_b = 5/4` while segment 1 starts with `M_a = 3/4`:
the shear polynomial of the interval `[0,1]` reflects only the LAST active
distributed load, so the integrated `M_b` misses the other UDL, while the next
`M_a` is re-accumulated exactly.  Bending moment is NOT continuous there. -/
theorem moment_discontinuity_overlapping_udls :
    loadsOverlapUdl.moment = []
    ∧ msegsOverlap.map (fun s => (s.a, s.b, s.M_a, s.M_b)) =
        [(0, 1, some 0, some (5/4)), (1, 2, some (3/4), some 0)]
    ∧ (5 : ℚ) / 4 ≠ 3 / 4 := by
  refine ⟨rfl, ?_, by norm_num⟩
  norm_num +decide [msegsOverlap, vsegsOverlap, reactionsOverlap, eventsOverlap,
    loadsOverlapUdl, supPin02,
    calculateMomentSegments, momentSegOf, momentStartAt, pointMomentTerm, angledMomentTerm,
    udlMomentTerm, uvlMomentTerm, momentLoadTerm, reactMomentTerm, coeffAt,
    calculateShearSegments, shearSegOf, shearAt, pointShearTerm, angledShearTerm, udlShearTerm,
    uvlShearTerm, reactShearTerm, udlActive, uvlActive,
    calculateReactions, generateEvents, eventList, supportEventList, jsOr, eps10, zeroTrig,
    List.dedup, List.insertionSort, List.orderedInsert, List.pwFilter]

/-- C4 (code bug): a UVL with `w1 = -1`, `w2 = 1` (so `w1 + w2 = 0`, below the
`1e-10` guard) over `[0,1]`.  In `calculateReactions` the guard skips it, but
the moment-segment start-value accumulation (evaluated at the event `x = 1`)
and `calculateMomentAtPoint` (evaluated at `x = 2`) reach the trapezoid
centroid division `/(3*(w1+w2))` with a zero denominator: the instrumented
embeddings return `none`, i.e. in JS the value becomes `Infinity`/`NaN`. -/
theorem uvl_zero_sum_division_reached :
    momentStartAtChecked zeroTrig loadsUvlZeroSum reactionsUvlZeroSum 1 = none
    ∧ calculateMomentAtPointChecked zeroTrig 2 loadsUvlZeroSum reactionsUvlZeroSum = none := by
  constructor
  · norm_num +decide [momentStartAtChecked, uvlMomentTermChecked, loadsUvlZeroSum,
      reactionsUvlZeroSum, eps10, List.mapM, List.mapM.loop]
  · norm_num +decide [calculateMomentAtPointChecked, uvlPointTermChecked, loadsUvlZeroSum,
      reactionsUvlZeroSum, eps10, List.mapM, List.mapM.loop]

/-- C7 counterexample: with `pin_x = roller_x = 0` (and no loads, length 10)
the analysis is ACCEPTED (`isValid = true`): the JS expression
`supports.roller_x || length` treats the roller position `0` as falsy and
replaces it by `length`, so validation sees pin 0, roller 10. -/
theorem coincident_zero_supports_accepted :
    (calculateBeamAnalysis zeroTrig bdLen10 supCoincidentZero noLoads).isValid = true := by
  norm_num +decide [bdLen10, supCoincidentZero, noLoads, calculateBeamAnalysis,
    createErrorResult, validateSupports, fixedXOf,
    calculateReactions, generateEvents, eventList, supportEventList,
    calculateShearSegments, shearSegOf, shearAt, pointShearTerm, angledShearTerm, udlShearTerm,
    uvlShearTerm, reactShearTerm, udlActive, uvlActive,
    calculateMomentSegments, momentSegOf, momentStartAt, pointMomentTerm, angledMomentTerm,
    udlMomentTerm, uvlMomentTerm, momentLoadTerm, reactMomentTerm, coeffAt,
    findExtrema, stepVSeg, stepMSeg, stepInterior, gtOpt, ltOpt, calculateMomentAtPoint,
    convertReactionsToDisplayUnits, convertSegmentsToDisplayUnits, convertExtremaToDisplayUnits,
    convertLoadsToBaseUnits, convertSupportsToBaseUnits, convertLength, convertForce,
    lengthFactor, forceFactor, BASE_UNITS_length, BASE_UNITS_force, jsOr, eps10, zeroTrig,
    List.dedup, List.insertionSort, List.orderedInsert, List.pwFilter]

/-- C10: for pin+roller supports the reaction computation never reads the
moment-load array, so replacing it by `[]` leaves the reaction list unchanged. -/
theorem pin_roller_reactions_ignore_moment_loads (tr : Trig) (loads : Loads)
    (px rx : Option ℚ) (fp : Option FixedPos) (L : ℚ) :
    calculateReactions tr { loads with moment := [] } ⟨SupportType.pinRoller, px, rx, fp⟩ L =
      calculateReactions tr loads ⟨SupportType.pinRoller, px, rx, fp⟩ L := rfl

/-- C7 (amended): fixed supports always validate.  A pin+roller pair with
explicit positions is accepted iff `0 ≤ pin_x`, `roller_x' ≤ L` and
`pin_x ≠ roller_x'` where `roller_x'` is `roller_x` with the value `0`
(JS-falsy) coerced to `L`.  Consequently `pin_x = roller_x = c` is rejected
for every `c ≠ 0` — the analysis then returns an invalid result with empty
reactions and segments and a non-empty error — while `pin_x = roller_x = 0`
is ACCEPTED (see the counterexample). -/
theorem support_validation_amended :
    (∀ (s : Support) (L : ℚ), s.stype = SupportType.fixed → validateSupports s L = true)
    ∧ (∀ (L px rx : ℚ),
        validateSupports ⟨SupportType.pinRoller, some px, some rx, none⟩ L = true ↔
          (0 ≤ px ∧ (if rx = 0 then L else rx) ≤ L ∧ px ≠ if rx = 0 then L else rx))
    ∧ (∀ (tr : Trig) (bd : BeamData) (loads : Loads) (c : ℚ) (fp : Option FixedPos),
        c ≠ 0 →
          (calculateBeamAnalysis tr bd ⟨SupportType.pinRoller, some c, some c, fp⟩
              loads).isValid = false
          ∧ (calculateBeamAnalysis tr bd ⟨SupportType.pinRoller, some c, some c, fp⟩
              loads).reactions = []
          ∧ (calculateBeamAnalysis tr bd ⟨SupportType.pinRoller, some c, some c, fp⟩
              loads).V_segments = []
          ∧ (calculateBeamAnalysis tr bd ⟨SupportType.pinRoller, some c, some c, fp⟩
              loads).M_segments = []
          ∧ ∃ msg, (calculateBeamAnalysis tr bd ⟨SupportType.pinRoller, some c, some c, fp⟩
              loads).error = some msg ∧ msg.length ≠ 0) := by
  refine ⟨?_, ?_, ?_⟩
  · intro s L h
    obtain ⟨st, px, rx, fp⟩ := s
    dsimp at h
    subst h
    rfl
  · intro L px rx
    rcases eq_or_ne px 0 with hpx | hpx <;>
      simp [validateSupports, jsOr, hpx, Bool.and_eq_true, decide_eq_true_eq] <;>
      tauto
  · intro tr bd loads c fp hc
    by_cases hl : bd.length ≤ 0
    · refine ⟨?_, ?_, ?_, ?_, ?_⟩ <;>
        simp [calculateBeamAnalysis, hl, createErrorResult] <;> decide
    · have hv : convertLength c bd.units.length BASE_UNITS_length ≠ 0 := by
        rw [convertLength_to_base]
        exact mul_ne_zero hc (ne_of_gt (lengthFactor_pos _))
      have hval : validateSupports
          (convertSupportsToBaseUnits ⟨SupportType.pinRoller, some c, some c, fp⟩
            bd.units.length)
          (convertLength bd.length bd.units.length BASE_UNITS_length) = false := by
        simp only [convertSupportsToBaseUnits, validateSupports, jsOr_some_zero,
          jsOr_some_of_ne _ _ hv]
        simp
      refine ⟨?_, ?_, ?_, ?_, ?_⟩ <;>
        simp [calculateBeamAnalysis, hl, hval, createErrorResult] <;> decide

/-- Witness for C7's amended theorem at concrete inputs. -/
theorem support_validation_amended_witness :
    validateSupports ⟨SupportType.fixed, none, none, some FixedPos.left⟩ 5 = true
    ∧ (calculateBeamAnalysis zeroTrig bdLen10 ⟨SupportType.pinRoller, some 3, some 3, none⟩
        noLoads).isValid = false :=
  ⟨support_validation_amended.1 _ 5 rfl,
   (support_validation_amended.2.2 zeroTrig bdLen10 noLoads 3 none (by norm_num)).1⟩

/-- C8 counterexample: a point load at x = -5 on a 10 m beam passes validation
unchanged, and the first shear segment then starts at -5, not at 0: the
segments do not partition `[0, length]` when load positions lie outside it. -/
theorem segments_escape_beam_with_outside_load :
    (calculateBeamAnalysis zeroTrig bdLen10 supPin010 loadsOutside).isValid = true
    ∧ (calculateBeamAnalysis zeroTrig bdLen10 supPin010 loadsOutside).V_segments.head?.map
        (fun s => s.a) = some (-5)
    ∧ (-5 : ℚ) ≠ 0 := by
  refine ⟨?_, ?_, by norm_num⟩ <;>
    norm_num +decide [bdLen10, supPin010, loadsOutside, calculateBeamAnalysis,
      createErrorResult, validateSupports, fixedXOf,
      calculateReactions, generateEvents, eventList, supportEventList,
      calculateShearSegments, shearSegOf, shearAt, pointShearTerm, angledShearTerm,
      udlShearTerm, uvlShearTerm, reactShearTerm, udlActive, uvlActive,
      calculateMomentSegments, momentSegOf, momentStartAt, pointMomentTerm, angledMomentTerm,
      udlMomentTerm, uvlMomentTerm, momentLoadTerm, reactMomentTerm, coeffAt,
      findExtrema, stepVSeg, stepMSeg, stepInterior, gtOpt, ltOpt, calculateMomentAtPoint,
      convertReactionsToDisplayUnits, convertSegmentsToDisplayUnits,
      convertExtremaToDisplayUnits,
      convertLoadsToBaseUnits, convertSupportsToBaseUnits, convertLength, convertForce,
      lengthFactor, forceFactor, BASE_UNITS_length, BASE_UNITS_force, jsOr, eps10, zeroTrig,
      List.dedup, List.insertionSort, List.orderedInsert, List.pwFilter]

/-- C9 counterexample: in scenario 1 both shear segments are `const`, yet the
sampler's raw output has 6 points, not 2 per segment: the loop
`for (i = 0; i <= numPoints; i++)` emits `numPoints + 1 = 3` points per const
segment. -/
theorem sampler_point_count_counterexample :
    ((calculateBeamAnalysis zeroTrig bdScenario1 supScenario1 loadsScenario1).V_segments.map
      fun s => s.type) = [SegType.const, SegType.const]
    ∧ (rawShearPoints
        (calculateBeamAnalysis zeroTrig bdScenario1 supScenario1
          loadsScenario1).V_segments).length = 6
    ∧ (6 : ℕ) ≠ 2 * 2 := by
  rw [scenario1_eval]
  refine ⟨by norm_num, ?_, by norm_num⟩
  simp [rawShearPoints, sampleSeg, numPointsFor]

/-- C5: with only point loads on a pin+roller support, the pin and roller
vertical reactions sum exactly to the sum of the load magnitudes (hence within
the 1e-6 tolerance).  Stated on `calculateReactions`, the cited code. -/
theorem pin_roller_point_reaction_sum (tr : Trig) (pts : List PointLoad)
    (px rx : Option ℚ) (fp : Option FixedPos) (L : ℚ)
    (hval : validateSupports ⟨SupportType.pinRoller, px, rx, fp⟩ L = true)
    (hdown : ∀ p ∈ pts, 0 ≤ p.P) :
    ∃ rp rr,
      calculateReactions tr ⟨pts, [], [], [], []⟩ ⟨SupportType.pinRoller, px, rx, fp⟩ L =
        [{ rtype := .vertical, atSupport := "pin", x := some (jsOr px 0), R := some rp },
         { rtype := .vertical, atSupport := "roller", x := some (jsOr rx L), R := some rr }]
      ∧ rp + rr = (pts.map fun p => p.P).sum
      ∧ |rp + rr - (pts.map fun p => p.P).sum| ≤ 1 / 1000000 := by
  refine ⟨(pts.map fun p => p.P).sum -
      (pts.map fun p => p.P * (p.x - jsOr px 0)).sum / (jsOr rx L - jsOr px 0),
    (pts.map fun p => p.P * (p.x - jsOr px 0)).sum / (jsOr rx L - jsOr px 0),
    ?_, by ring, ?_⟩
  · norm_num [calculateReactions, eps10]
  · rw [show (pts.map fun p => p.P).sum -
        (pts.map fun p => p.P * (p.x - jsOr px 0)).sum / (jsOr rx L - jsOr px 0) +
        (pts.map fun p => p.P * (p.x - jsOr px 0)).sum / (jsOr rx L - jsOr px 0) -
        (pts.map fun p => p.P).sum = (0 : ℚ) from by ring]
    norm_num

/-- Witness for C5 at a concrete two-load configuration. -/
theorem pin_roller_point_reaction_sum_witness :
    ∃ rp rr,
      calculateReactions zeroTrig ⟨[⟨"A", 3, 5⟩, ⟨"B", 7, 2⟩], [], [], [], []⟩
          ⟨SupportType.pinRoller, some 0, some 10, none⟩ 10 =
        [{ rtype := .vertical, atSupport := "pin", x := some (jsOr (some 0) 0),
           R := some rp },
         { rtype := .vertical, atSupport := "roller", x := some (jsOr (some 10) 10),
           R := some rr }]
      ∧ rp + rr = ([(⟨"A", 3, 5⟩ : PointLoad), ⟨"B", 7, 2⟩].map fun p => p.P).sum
      ∧ |rp + rr - ([(⟨"A", 3, 5⟩ : PointLoad), ⟨"B", 7, 2⟩].map fun p => p.P).sum| ≤
          1 / 1000000 :=
  pin_roller_point_reaction_sum zeroTrig [⟨"A", 3, 5⟩, ⟨"B", 7, 2⟩] (some 0) (some 10) none 10
    (by decide) (by decide)

lemma perm_flatten_map {α β : Type} (f : α → List β) {l₁ l₂ : List α} (h : l₁.Perm l₂) :
    (l₁.map f).flatten.Perm (l₂.map f).flatten := by
  simpa [List.flatMap] using h.flatMap_right f

lemma eventList_perm {loads₂ loads : Loads} (s : Support) (L : ℚ)
    (h1 : loads₂.point.Perm loads.point) (h2 : loads₂.angled.Perm loads.angled)
    (h3 : loads₂.udl.Perm loads.udl) (h4 : loads₂.uvl.Perm loads.uvl)
    (h5 : loads₂.moment.Perm loads.moment) :
    (eventList loads₂ s L).Perm (eventList loads s L) := by
  unfold eventList
  exact (((((List.Perm.refl ([0, L] ++ supportEventList s L)).append
    (h1.map _)).append (h2.map _)).append (perm_flatten_map _ h3)).append
    (perm_flatten_map _ h4)).append (h5.map _)

lemma generateEvents_sorted_lt (loads : Loads) (s : Support) (L : ℚ) :
    (generateEvents loads s L).Sorted (· < ·) := by
  have hperm : (generateEvents loads s L).Perm (eventList loads s L).dedup :=
    List.perm_insertionSort _ _
  have hnodup : (generateEvents loads s L).Nodup :=
    hperm.nodup_iff.mpr (List.nodup_dedup _)
  exact List.Sorted.lt_of_le (List.sorted_insertionSort _ _) hnodup

lemma generateEvents_mem (loads : Loads) (s : Support) (L : ℚ) (x : ℚ) :
    x ∈ generateEvents loads s L ↔ x ∈ eventList loads s L := by
  unfold generateEvents
  rw [(List.perm_insertionSort (· ≤ ·) (eventList loads s L).dedup).mem_iff,
    List.mem_dedup]

lemma generateEvents_mem_char (loads : Loads) (s : Support) (L : ℚ) (x : ℚ) :
    x ∈ generateEvents loads s L ↔
      (x = 0 ∨ x = L ∨ x ∈ supportEventList s L
        ∨ (∃ l ∈ loads.point, x = l.x) ∨ (∃ l ∈ loads.angled, x = l.x)
        ∨ (∃ l ∈ loads.udl, x = l.a ∨ x = l.b) ∨ (∃ l ∈ loads.uvl, x = l.a ∨ x = l.b)
        ∨ (∃ l ∈ loads.moment, x = l.x)) := by
  rw [generateEvents_mem]
  simp only [eventList, List.mem_append, List.mem_cons, List.mem_singleton,
    List.mem_map, List.mem_flatten, List.not_mem_nil, or_false]
  aesop

/-- C6: `generateEvents` returns a strictly increasing, duplicate-free list
whose members are exactly 0, the length, the support positions and the load
boundary positions, and nothing else; for explicitly placed pin+roller
supports the support positions are `pin_x` and `roller_x` themselves (the
JS-falsy coercion of `roller_x = 0` to `length` does not change the SET,
since 0 and length are always events).  The output is invariant under any
permutation of the five load arrays, and recomputation is deterministic. -/
theorem generateEvents_spec (loads : Loads) (s : Support) (L : ℚ) :
    (generateEvents loads s L).Sorted (· < ·)
    ∧ (generateEvents loads s L).Nodup
    ∧ (∀ x, x ∈ generateEvents loads s L ↔
        (x = 0 ∨ x = L ∨ x ∈ supportEventList s L
          ∨ (∃ l ∈ loads.point, x = l.x) ∨ (∃ l ∈ loads.angled, x = l.x)
          ∨ (∃ l ∈ loads.udl, x = l.a ∨ x = l.b) ∨ (∃ l ∈ loads.uvl, x = l.a ∨ x = l.b)
          ∨ (∃ l ∈ loads.moment, x = l.x)))
    ∧ (∀ (px rx : ℚ) (fp : Option FixedPos) (x : ℚ),
        x ∈ generateEvents loads ⟨SupportType.pinRoller, some px, some rx, fp⟩ L ↔
          (x = 0 ∨ x = L ∨ x = px ∨ x = rx
            ∨ (∃ l ∈ loads.point, x = l.x) ∨ (∃ l ∈ loads.angled, x = l.x)
            ∨ (∃ l ∈ loads.udl, x = l.a ∨ x = l.b) ∨ (∃ l ∈ loads.uvl, x = l.a ∨ x = l.b)
            ∨ (∃ l ∈ loads.moment, x = l.x)))
    ∧ (∀ loads₂ : Loads, loads₂.point.Perm loads.point → loads₂.angled.Perm loads.angled →
        loads₂.udl.Perm loads.udl → loads₂.uvl.Perm loads.uvl →
        loads₂.moment.Perm loads.moment →
        generateEvents loads₂ s L = generateEvents loads s L)
    ∧ generateEvents loads s L = generateEvents loads s L := by
  refine ⟨generateEvents_sorted_lt loads s L, ?_, generateEvents_mem_char loads s L, ?_, ?_, rfl⟩
  · exact (List.perm_insertionSort _ _).nodup_iff.mpr (List.nodup_dedup _)
  · intro px rx fp x
    rw [generateEvents_mem_char]
    simp only [supportEventList, jsOr_some_zero, List.mem_cons, List.mem_singleton,
      List.not_mem_nil, or_false]
    rcases eq_or_ne rx 0 with h | h <;> simp [jsOr, h] <;> aesop
  · intro loads₂ h1 h2 h3 h4 h5
    have hp : ((eventList loads₂ s L).dedup).Perm ((eventList loads s L).dedup) :=
      (eventList_perm s L h1 h2 h3 h4 h5).dedup
    exact List.eq_of_perm_of_sorted
      (((List.perm_insertionSort _ _).trans hp).trans (List.perm_insertionSort _ _).symm)
      (List.sorted_insertionSort _ _) (List.sorted_insertionSort _ _)

/-- Witness for C6 at a concrete input, including a permuted load list. -/
theorem generateEvents_spec_witness :
    generateEvents ⟨[⟨"B", 7, 2⟩, ⟨"A", 5, 1⟩], [], [], [], []⟩ supPin010 10 =
      generateEvents ⟨[⟨"A", 5, 1⟩, ⟨"B", 7, 2⟩], [], [], [], []⟩ supPin010 10
    ∧ ((7 : ℚ) ∈ generateEvents ⟨[⟨"A", 5, 1⟩, ⟨"B", 7, 2⟩], [], [], [], []⟩ supPin010 10 ↔
        ((7 : ℚ) = 0 ∨ (7 : ℚ) = 10 ∨ (7 : ℚ) ∈ supportEventList supPin010 10
          ∨ (∃ l ∈ [(⟨"A", 5, 1⟩ : PointLoad), ⟨"B", 7, 2⟩], (7 : ℚ) = l.x)
          ∨ (∃ l ∈ ([] : List AngledLoad), (7 : ℚ) = l.x)
          ∨ (∃ l ∈ ([] : List UDLLoad), (7 : ℚ) = l.a ∨ (7 : ℚ) = l.b)
          ∨ (∃ l ∈ ([] : List UVLLoad), (7 : ℚ) = l.a ∨ (7 : ℚ) = l.b)
          ∨ (∃ l ∈ ([] : List MomentLoad), (7 : ℚ) = l.x))) :=
  ⟨(generateEvents_spec ⟨[⟨"A", 5, 1⟩, ⟨"B", 7, 2⟩], [], [], [], []⟩ supPin010 10).2.2.2.2.1
      ⟨[⟨"B", 7, 2⟩, ⟨"A", 5, 1⟩], [], [], [], []⟩ (by decide) (by decide) (by decide)
      (by decide) (by decide),
   (generateEvents_spec ⟨[⟨"A", 5, 1⟩, ⟨"B", 7, 2⟩], [], [], [], []⟩ supPin010 10).2.2.1 7⟩

lemma convertLength_zero (u v : String) : convertLength 0 u v = 0 := by
  simp [convertLength]

lemma convertLength_roundtrip (v : ℚ) (u : String) :
    convertLength (convertLength v u BASE_UNITS_length) BASE_UNITS_length u = v := by
  have h := (lengthFactor_pos u).ne.symm
  field_simp [convertLength, lengthFactor_base]

lemma shearSegOf_a (tr : Trig) (loads : Loads) (R : List Reaction) (p : ℚ × ℚ) :
    (shearSegOf tr loads R p).a = p.1 := by
  cases h1 : (loads.uvl.filter (uvlActive p.1 p.2)).getLast? with
  | some u => simp [shearSegOf, h1]
  | none =>
    cases h2 : (loads.udl.filter (udlActive p.1 p.2)).getLast? with
    | some u => simp [shearSegOf, h1, h2]
    | none => simp [shearSegOf, h1, h2]

lemma shearSegOf_b (tr : Trig) (loads : Loads) (R : List Reaction) (p : ℚ × ℚ) :
    (shearSegOf tr loads R p).b = p.2 := by
  cases h1 : (loads.uvl.filter (uvlActive p.1 p.2)).getLast? with
  | some u => simp [shearSegOf, h1]
  | none =>
    cases h2 : (loads.udl.filter (udlActive p.1 p.2)).getLast? with
    | some u => simp [shearSegOf, h1, h2]
    | none => simp [shearSegOf, h1, h2]

lemma momentSegOf_a (tr : Trig) (loads : Loads) (R : List Reaction)
    (pv : (ℚ × ℚ) × DiagramSegment) : (momentSegOf tr loads R pv).a = pv.1.1 := by
  cases h : pv.2.type <;> simp [momentSegOf, h]

lemma momentSegOf_b (tr : Trig) (loads : Loads) (R : List Reaction)
    (pv : (ℚ × ℚ) × DiagramSegment) : (momentSegOf tr loads R pv).b = pv.1.2 := by
  cases h : pv.2.type <;> simp [momentSegOf, h]

lemma shearSegments_ab (tr : Trig) (loads : Loads) (R : List Reaction) (es : List ℚ)
    (L : ℚ) :
    (calculateShearSegments tr loads R es L).map (fun sg => (sg.a, sg.b)) =
      es.zip es.tail := by
  unfold calculateShearSegments
  rw [List.map_map]
  have h : ((fun sg => (sg.a, sg.b)) ∘ shearSegOf tr loads R) = id := by
    funext p
    simp [shearSegOf_a, shearSegOf_b]
  rw [h, List.map_id]

lemma momentSegments_ab (tr : Trig) (V : List DiagramSegment) (loads : Loads)
    (R : List Reaction) (es : List ℚ) (L : ℚ)
    (hlen : (es.zip es.tail).length ≤ V.length) :
    (calculateMomentSegments tr V loads R es L).map (fun sg => (sg.a, sg.b)) =
      es.zip es.tail := by
  unfold calculateMomentSegments
  rw [List.map_map]
  have h : ((fun sg => (sg.a, sg.b)) ∘ momentSegOf tr loads R) = Prod.fst := by
    funext pv
    simp [momentSegOf_a, momentSegOf_b]
  rw [h, List.map_fst_zip _ _ hlen]

lemma sorted_head_eq {l : List ℚ} (hs : l.Sorted (· ≤ ·)) {m : ℚ} (hm : m ∈ l)
    (hmin : ∀ x ∈ l, m ≤ x) : l.head? = some m := by
  cases l with
  | nil => cases hm
  | cons a t =>
    have h1 : m ≤ a := hmin a (List.mem_cons_self a t)
    have h2 : a ≤ m := by
      rcases List.mem_cons.mp hm with rfl | hmt
      · exact le_refl _
      · exact (List.sorted_cons.mp hs).1 m hmt
    simp [le_antisymm h2 h1]

lemma sorted_getLast_eq {l : List ℚ} (hs : l.Sorted (· ≤ ·)) {m : ℚ} (hm : m ∈ l)
    (hmax : ∀ x ∈ l, x ≤ m) : l.getLast? = some m := by
  induction l with
  | nil => cases hm
  | cons a t ih =>
    cases t with
    | nil =>
      rcases List.mem_cons.mp hm with rfl | hmt
      · rfl
      · cases hmt
    | cons b t2 =>
      rw [List.getLast?_cons_cons]
      have hst : (b :: t2).Sorted (· ≤ ·) := (List.sorted_cons.mp hs).2
      have hmax2 : ∀ x ∈ b :: t2, x ≤ m := fun x hx => hmax x (List.mem_cons_of_mem a hx)
      rcases List.mem_cons.mp hm with rfl | hmt
      · have hb1 : m ≤ b := (List.sorted_cons.mp hs).1 b (List.mem_cons_self b t2)
        have hb2 : b ≤ m := hmax b (List.mem_cons_of_mem _ (List.mem_cons_self b t2))
        have hmb : m = b := le_antisymm hb1 hb2
        exact ih hst (hmb ▸ List.mem_cons_self b t2) hmax2
      · exact ih hst hmt hmax2

lemma convertLength_eq_zero_iff (v : ℚ) (u : String) :
    convertLength v u BASE_UNITS_length = 0 ↔ v = 0 := by
  rw [convertLength_to_base]
  constructor
  · intro h
    rcases mul_eq_zero.mp h with h | h
    · exact h
    · exact absurd h (lengthFactor_pos u).ne.symm
  · intro h
    rw [h, zero_mul]

lemma supportEventList_base (s : Support) (L : ℚ) (u : BeamUnits) :
    supportEventList (convertSupportsToBaseUnits s u.length)
      (convertLength L u.length BASE_UNITS_length) =
    (supportEventList s L).map (fun x => convertLength x u.length BASE_UNITS_length) := by
  rcases s with ⟨st, px, rx, fp⟩
  cases st with
  | fixed =>
    simp only [convertSupportsToBaseUnits, supportEventList, fixedXOf, List.map_cons,
      List.map_nil]
    rcases eq_or_ne fp (some FixedPos.right) with h | h <;> simp [h, convertLength_zero]
  | pinRoller =>
    simp only [convertSupportsToBaseUnits, supportEventList, List.map_cons, List.map_nil,
      jsOr_some_zero]
    refine congrArg₂ _ rfl (congrArg₂ _ ?_ rfl)
    rcases rx with _ | r
    · simp [jsOr, convertLength_zero]
    · rcases eq_or_ne r 0 with h | h
      · simp [jsOr, h, convertLength_zero]
      · have hc : convertLength r u.length BASE_UNITS_length ≠ 0 := by
          rw [ne_eq, convertLength_eq_zero_iff]
          exact h
        simp [jsOr, h, hc]

lemma eventList_base (loads : Loads) (s : Support) (L : ℚ) (u : BeamUnits) :
    eventList (convertLoadsToBaseUnits loads u) (convertSupportsToBaseUnits s u.length)
      (convertLength L u.length BASE_UNITS_length) =
    (eventList loads s L).map (fun x => convertLength x u.length BASE_UNITS_length) := by
  unfold eventList
  simp only [List.map_append, supportEventList_base, convertLoadsToBaseUnits,
    List.map_map, List.map_cons, List.map_nil, List.map_flatten, convertLength_zero]
  rfl

lemma zip_tail_getLast_map_snd {α : Type} :
    ∀ (l : List α) (x y : α),
      (((x :: y :: l).zip (y :: l)).getLast?).map Prod.snd = (x :: y :: l).getLast?
  | [], x, y => rfl
  | z :: l, x, y => by
    rw [List.zip_cons_cons, List.getLast?_cons_cons,
      show (y :: z :: l).zip (z :: l) = (y, z) :: ((z :: l).zip l) from rfl]
    rw [show ((x, y) :: (y, z) :: ((z :: l).zip l)).getLast? =
      ((y, z) :: ((z :: l).zip l)).getLast? from List.getLast?_cons_cons]
    exact zip_tail_getLast_map_snd l y z

lemma isValid_pipeline {tr : Trig} {bd : BeamData} {s : Support} {loads : Loads}
    (hv : (calculateBeamAnalysis tr bd s loads).isValid = true) :
    ¬bd.length ≤ 0 ∧
      validateSupports (convertSupportsToBaseUnits s bd.units.length)
        (convertLength bd.length bd.units.length BASE_UNITS_length) = true := by
  by_cases h1 : bd.length ≤ 0
  · simp [calculateBeamAnalysis, h1, createErrorResult] at hv
  · cases h2 : validateSupports (convertSupportsToBaseUnits s bd.units.length)
        (convertLength bd.length bd.units.length BASE_UNITS_length) with
    | false =>
      exfalso
      simp [calculateBeamAnalysis, h1, h2, createErrorResult] at hv
    | true => exact ⟨h1, rfl⟩

lemma calculateBeamAnalysis_valid_eq (tr : Trig) (bd : BeamData) (s : Support)
    (loads : Loads) (h1 : ¬bd.length ≤ 0)
    (h2 : validateSupports (convertSupportsToBaseUnits s bd.units.length)
      (convertLength bd.length bd.units.length BASE_UNITS_length) = true) :
    calculateBeamAnalysis tr bd s loads =
      { reactions := convertReactionsToDisplayUnits
          (calculateReactions tr (convertLoadsToBaseUnits loads bd.units)
            (convertSupportsToBaseUnits s bd.units.length)
            (convertLength bd.length bd.units.length BASE_UNITS_length)) bd.units,
        events := (generateEvents (convertLoadsToBaseUnits loads bd.units)
            (convertSupportsToBaseUnits s bd.units.length)
            (convertLength bd.length bd.units.length BASE_UNITS_length)).map
          fun x => convertLength x BASE_UNITS_length bd.units.length,
        V_segments := convertSegmentsToDisplayUnits
          (calculateShearSegments tr (convertLoadsToBaseUnits loads bd.units)
            (calculateReactions tr (convertLoadsToBaseUnits loads bd.units)
              (convertSupportsToBaseUnits s bd.units.length)
              (convertLength bd.length bd.units.length BASE_UNITS_length))
            (generateEvents (convertLoadsToBaseUnits loads bd.units)
              (convertSupportsToBaseUnits s bd.units.length)
              (convertLength bd.length bd.units.length BASE_UNITS_length))
            (convertLength bd.length bd.units.length BASE_UNITS_length)) bd.units,
        M_segments := convertSegmentsToDisplayUnits
          (calculateMomentSegments tr
            (calculateShearSegments tr (convertLoadsToBaseUnits loads bd.units)
              (calculateReactions tr (convertLoadsToBaseUnits loads bd.units)
                (convertSupportsToBaseUnits s bd.units.length)
                (convertLength bd.length bd.units.length BASE_UNITS_length))
              (generateEvents (convertLoadsToBaseUnits loads bd.units)
                (convertSupportsToBaseUnits s bd.units.length)
                (convertLength bd.length bd.units.length BASE_UNITS_length))
              (convertLength bd.length bd.units.length BASE_UNITS_length))
            (convertLoadsToBaseUnits loads bd.units)
            (calculateReactions tr (convertLoadsToBaseUnits loads bd.units)
              (convertSupportsToBaseUnits s bd.units.length)
              (convertLength bd.length bd.units.length BASE_UNITS_length))
            (generateEvents (convertLoadsToBaseUnits loads bd.units)
              (convertSupportsToBaseUnits s bd.units.length)
              (convertLength bd.length bd.units.length BASE_UNITS_length))
            (convertLength bd.length bd.units.length BASE_UNITS_length)) bd.units,
        extrema := convertExtremaToDisplayUnits
          (findExtrema tr
            (calculateShearSegments tr (convertLoadsToBaseUnits loads bd.units)
              (calculateReactions tr (convertLoadsToBaseUnits loads bd.units)
                (convertSupportsToBaseUnits s bd.units.length)
                (convertLength bd.length bd.units.length BASE_UNITS_length))
              (generateEvents (convertLoadsToBaseUnits loads bd.units)
                (convertSupportsToBaseUnits s bd.units.length)
                (convertLength bd.length bd.units.length BASE_UNITS_length))
              (convertLength bd.length bd.units.length BASE_UNITS_length))
            (calculateMomentSegments tr
              (calculateShearSegments tr (convertLoadsToBaseUnits loads bd.units)
                (calculateReactions tr (convertLoadsToBaseUnits loads bd.units)
                  (convertSupportsToBaseUnits s bd.units.length)
                  (convertLength bd.length bd.units.length BASE_UNITS_length))
                (generateEvents (convertLoadsToBaseUnits loads bd.units)
                  (convertSupportsToBaseUnits s bd.units.length)
                  (convertLength bd.length bd.units.length BASE_UNITS_length))
                (convertLength bd.length bd.units.length BASE_UNITS_length))
              (convertLoadsToBaseUnits loads bd.units)
              (calculateReactions tr (convertLoadsToBaseUnits loads bd.units)
                (convertSupportsToBaseUnits s bd.units.length)
                (convertLength bd.length bd.units.length BASE_UNITS_length))
              (generateEvents (convertLoadsToBaseUnits loads bd.units)
                (convertSupportsToBaseUnits s bd.units.length)
                (convertLength bd.length bd.units.length BASE_UNITS_length))
              (convertLength bd.length bd.units.length BASE_UNITS_length))
            (convertLoadsToBaseUnits loads bd.units)
            (calculateReactions tr (convertLoadsToBaseUnits loads bd.units)
              (convertSupportsToBaseUnits s bd.units.length)
              (convertLength bd.length bd.units.length BASE_UNITS_length))
            (convertLength bd.length bd.units.length BASE_UNITS_length)) bd.units,
        isValid := true, error := none } := by
  simp [calculateBeamAnalysis, h1, h2]

/-- C8 (amended): when the beam is valid and every event position lies within [0, length],
the displayed events are strictly sorted from 0 to length, the shear and moment segments
partition exactly the consecutive event intervals, the first segment starts at 0 and the
last ends at length. -/
theorem segments_partition_amended (tr : Trig) (bd : BeamData) (s : Support) (loads : Loads)
    (hv : (calculateBeamAnalysis tr bd s loads).isValid = true)
    (hpos : ∀ x ∈ eventList loads s bd.length, 0 ≤ x ∧ x ≤ bd.length) :
    (calculateBeamAnalysis tr bd s loads).events.Sorted (· < ·)
    ∧ (calculateBeamAnalysis tr bd s loads).events.head? = some 0
    ∧ (calculateBeamAnalysis tr bd s loads).events.getLast? = some bd.length
    ∧ (calculateBeamAnalysis tr bd s loads).V_segments.map (fun sg => (sg.a, sg.b)) =
        (calculateBeamAnalysis tr bd s loads).events.zip
          (calculateBeamAnalysis tr bd s loads).events.tail
    ∧ (calculateBeamAnalysis tr bd s loads).M_segments.map (fun sg => (sg.a, sg.b)) =
        (calculateBeamAnalysis tr bd s loads).events.zip
          (calculateBeamAnalysis tr bd s loads).events.tail
    ∧ (calculateBeamAnalysis tr bd s loads).V_segments.head?.map (fun sg => sg.a) = some 0
    ∧ (calculateBeamAnalysis tr bd s loads).V_segments.getLast?.map (fun sg => sg.b) =
        some bd.length := by
  obtain ⟨h1, h2⟩ := isValid_pipeline hv
  rw [calculateBeamAnalysis_valid_eq tr bd s loads h1 h2]
  set BL := convertLoadsToBaseUnits loads bd.units with hBL
  set BS := convertSupportsToBaseUnits s bd.units.length with hBS
  set L' := convertLength bd.length bd.units.length BASE_UNITS_length with hL'
  set es := generateEvents BL BS L' with hes
  set R := calculateReactions tr BL BS L' with hR
  set Vsegs := calculateShearSegments tr BL R es L' with hV
  set D : ℚ → ℚ := fun x => convertLength x BASE_UNITS_length bd.units.length with hD
  have hsort : es.Sorted (· < ·) := generateEvents_sorted_lt BL BS L'
  have h0mem : (0 : ℚ) ∈ es := by
    rw [hes, generateEvents_mem]
    simp [eventList]
  have hLmem : L' ∈ es := by
    rw [hes, generateEvents_mem]
    simp [eventList]
  have hbound : ∀ e ∈ es, 0 ≤ e ∧ e ≤ L' := by
    intro e he
    rw [hes, generateEvents_mem, hBL, hBS, hL', eventList_base] at he
    obtain ⟨x, hx, rfl⟩ := List.mem_map.mp he
    obtain ⟨hx0, hxL⟩ := hpos x hx
    constructor
    · rw [convertLength_to_base]
      exact mul_nonneg hx0 (lengthFactor_pos _).le
    · rw [hL', convertLength_to_base, convertLength_to_base]
      exact mul_le_mul_of_nonneg_right hxL (lengthFactor_pos _).le
  have hL'pos : 0 < L' := by
    rw [hL', convertLength_to_base]
    exact mul_pos (not_le.mp h1) (lengthFactor_pos _)
  have hhead : es.head? = some 0 :=
    sorted_head_eq hsort.le_of_lt h0mem (fun x hx => (hbound x hx).1)
  have hlast : es.getLast? = some L' :=
    sorted_getLast_eq hsort.le_of_lt hLmem (fun x hx => (hbound x hx).2)
  obtain ⟨e1, t, hest⟩ : ∃ e1 t, es = 0 :: e1 :: t := by
    cases hesn : es with
    | nil =>
      rw [hesn] at hhead
      cases hhead
    | cons a tl =>
      rw [hesn] at hhead
      have ha : a = 0 := by simpa using hhead
      cases htl : tl with
      | nil =>
        exfalso
        rw [hesn, htl, ha] at hLmem
        simp at hLmem
        exact hL'pos.ne (hLmem ▸ rfl)
      | cons b t2 => exact ⟨b, t2, by rw [ha]⟩
  have hDmono : ∀ a b : ℚ, a < b → D a < D b := by
    intro a b hab
    simpa [hD, convertLength, lengthFactor_base] using
      (div_lt_div_right (lengthFactor_pos bd.units.length)).mpr hab
  have hD0 : D 0 = 0 := by simp [hD, convertLength]
  have hDL : D L' = bd.length := by
    rw [hD, hL']
    exact convertLength_roundtrip bd.length bd.units.length
  have hVab : Vsegs.map (fun sg => (sg.a, sg.b)) = es.zip es.tail :=
    shearSegments_ab tr BL R es L'
  have hVdisp : (convertSegmentsToDisplayUnits Vsegs bd.units).map (fun sg => (sg.a, sg.b)) =
      (es.map D).zip ((es.map D).tail) := by
    have hstep : (convertSegmentsToDisplayUnits Vsegs bd.units).map
        (fun sg => (sg.a, sg.b)) = (Vsegs.map fun sg => (sg.a, sg.b)).map (Prod.map D D) := by
      simp only [convertSegmentsToDisplayUnits, List.map_map]
      rfl
    rw [hstep, hVab, ← List.map_tail, List.zip_map]
  have hMab : (calculateMomentSegments tr Vsegs BL R es L').map (fun sg => (sg.a, sg.b)) =
      es.zip es.tail := by
    apply momentSegments_ab
    rw [hV]
    unfold calculateShearSegments
    rw [List.length_map]
  have hMdisp : (convertSegmentsToDisplayUnits (calculateMomentSegments tr Vsegs BL R es L')
      bd.units).map (fun sg => (sg.a, sg.b)) = (es.map D).zip ((es.map D).tail) := by
    have hstep : (convertSegmentsToDisplayUnits (calculateMomentSegments tr Vsegs BL R es L')
        bd.units).map (fun sg => (sg.a, sg.b)) =
        ((calculateMomentSegments tr Vsegs BL R es L').map fun sg => (sg.a, sg.b)).map
          (Prod.map D D) := by
      simp only [convertSegmentsToDisplayUnits, List.map_map]
      rfl
    rw [hstep, hMab, ← List.map_tail, List.zip_map]
  refine ⟨?_, ?_, ?_, hVdisp, hMdisp, ?_, ?_⟩
  · exact List.Pairwise.map D (fun a b hab => hDmono a b hab) hsort
  · rw [List.head?_map, hhead]
    simp [hD0]
  · rw [List.getLast?_map, hlast]
    simp [hDL]
  · have hcg := congrArg List.head? hVdisp
    rw [List.head?_map] at hcg
    rw [hest] at hcg
    simp only [List.map_cons, List.zip_cons_cons, List.tail_cons, List.head?_cons] at hcg
    have h6 := congrArg (Option.map Prod.fst) hcg
    rw [Option.map_map] at h6
    simp only [Option.map_some'] at h6
    rw [show ((fun sg : DiagramSegment => sg.a)) =
      (Prod.fst ∘ fun sg : DiagramSegment => (sg.a, sg.b)) from rfl]
    rw [h6, hD0]
  · have hcg := congrArg List.getLast? hVdisp
    rw [List.getLast?_map] at hcg
    have h7 := congrArg (Option.map Prod.snd) hcg
    rw [Option.map_map] at h7
    rw [hest] at h7
    simp only [List.map_cons, List.tail_cons] at h7
    rw [zip_tail_getLast_map_snd (t.map D) (D 0) (D e1)] at h7
    rw [show ((fun sg : DiagramSegment => sg.b)) =
      (Prod.snd ∘ fun sg : DiagramSegment => (sg.a, sg.b)) from rfl]
    rw [h7]
    rw [show (D 0 :: D e1 :: t.map D) = es.map D from by rw [hest]; rfl]
    rw [List.getLast?_map, hlast]
    simp [hDL]

theorem segments_partition_amended_witness :
    (calculateBeamAnalysis zeroTrig bdScenario1 supScenario1 loadsScenario1).events.Sorted
      (· < ·)
    ∧ (calculateBeamAnalysis zeroTrig bdScenario1 supScenario1 loadsScenario1).events.head? =
        some 0
    ∧ (calculateBeamAnalysis zeroTrig bdScenario1 supScenario1
        loadsScenario1).events.getLast? = some bdScenario1.length
    ∧ (calculateBeamAnalysis zeroTrig bdScenario1 supScenario1 loadsScenario1).V_segments.map
        (fun sg => (sg.a, sg.b)) =
        (calculateBeamAnalysis zeroTrig bdScenario1 supScenario1 loadsScenario1).events.zip
          (calculateBeamAnalysis zeroTrig bdScenario1 supScenario1 loadsScenario1).events.tail
    ∧ (calculateBeamAnalysis zeroTrig bdScenario1 supScenario1 loadsScenario1).M_segments.map
        (fun sg => (sg.a, sg.b)) =
        (calculateBeamAnalysis zeroTrig bdScenario1 supScenario1 loadsScenario1).events.zip
          (calculateBeamAnalysis zeroTrig bdScenario1 supScenario1 loadsScenario1).events.tail
    ∧ (calculateBeamAnalysis zeroTrig bdScenario1 supScenario1
        loadsScenario1).V_segments.head?.map (fun sg => sg.a) = some 0
    ∧ (calculateBeamAnalysis zeroTrig bdScenario1 supScenario1
        loadsScenario1).V_segments.getLast?.map (fun sg => sg.b) = some bdScenario1.length :=
  segments_partition_amended zeroTrig bdScenario1 supScenario1 loadsScenario1
    (by rw [scenario1_eval]) (by decide)

/-- C9 (amended): per segment the sampler emits `numPointsFor type + 1` points
(3 const / 11 linear / 21 quadratic, inclusive loop bound), and the k-th point is
(round3 x, round3 p(dx)) where p is the segment polynomial c0 + c1*dx + c2*dx^2
read from `coeffs` (missing coefficients default to 0) and
x = a + (b - a) * k/numPoints — the builder's polynomial, rounded to 3 decimals. -/
theorem sampler_matches_coefficients (s : DiagramSegment) (cs : List ℚ)
    (hc : s.coeffs = some cs)
    (hdeg : cs.length ≤ match s.type with
      | SegType.const => 1
      | SegType.linear => 2
      | SegType.quadratic => 3
      | SegType.cubic => 0) :
    (sampleSeg s).length = numPointsFor s.type + 1
    ∧ ∀ k, k ≤ numPointsFor s.type →
        (sampleSeg s)[k]? = some
          (round3 (s.a + (s.b - s.a) * ((k : ℚ) / (numPointsFor s.type : ℚ))),
           round3 (cs.getD 0 0
             + cs.getD 1 0 * ((s.b - s.a) * ((k : ℚ) / (numPointsFor s.type : ℚ)))
             + cs.getD 2 0 * ((s.b - s.a) * ((k : ℚ) / (numPointsFor s.type : ℚ)))
               * ((s.b - s.a) * ((k : ℚ) / (numPointsFor s.type : ℚ))))) := by
  constructor
  · rw [sampleSeg]
    simp only [List.length_map, List.length_range]
  · intro k hk
    have hk' : k < numPointsFor s.type + 1 := Nat.lt_succ_of_le hk
    simp only [sampleSeg, List.getElem?_map, List.getElem?_range hk', Option.map_some']
    rw [hc]
    cases ht : s.type with
    | const =>
      rw [ht] at hdeg
      simp only at hdeg
      have h1 : cs.getD 1 0 = 0 := List.getD_eq_default cs 0 (by omega)
      have h2 : cs.getD 2 0 = 0 := List.getD_eq_default cs 0 (by omega)
      simp only [h1, h2, zero_mul, add_zero]
    | linear =>
      rw [ht] at hdeg
      simp only at hdeg
      have h2 : cs.getD 2 0 = 0 := List.getD_eq_default cs 0 (by omega)
      simp only [h2, zero_mul, add_zero]
      refine congrArg some (congrArg₂ Prod.mk rfl (congrArg round3 ?_))
      ring
    | quadratic =>
      refine congrArg some (congrArg₂ Prod.mk rfl (congrArg round3 ?_))
      show cs.getD 0 0 + cs.getD 1 0 * _ + cs.getD 2 0 * _ * _ = _
      ring
    | cubic =>
      rw [ht] at hdeg
      simp only [Nat.le_zero, List.length_eq_zero] at hdeg
      subst hdeg
      refine congrArg some (congrArg₂ Prod.mk rfl (congrArg round3 ?_))
      simp

theorem sampler_matches_coefficients_witness :
    segC9.coeffs = some [(1 : ℚ), 2]
    ∧ ([(1 : ℚ), 2] : List ℚ).length ≤ (match segC9.type with
        | SegType.const => 1
        | SegType.linear => 2
        | SegType.quadratic => 3
        | SegType.cubic => 0)
    ∧ ((sampleSeg segC9).length = numPointsFor segC9.type + 1
      ∧ ∀ k, k ≤ numPointsFor segC9.type →
          (sampleSeg segC9)[k]? = some
            (round3 (segC9.a + (segC9.b - segC9.a) * ((k : ℚ) / (numPointsFor segC9.type : ℚ))),
             round3 (([(1 : ℚ), 2] : List ℚ).getD 0 0
               + ([(1 : ℚ), 2] : List ℚ).getD 1 0 *
                   ((segC9.b - segC9.a) * ((k : ℚ) / (numPointsFor segC9.type : ℚ)))
               + ([(1 : ℚ), 2] : List ℚ).getD 2 0 *
                   ((segC9.b - segC9.a) * ((k : ℚ) / (numPointsFor segC9.type : ℚ)))
                 * ((segC9.b - segC9.a) * ((k : ℚ) / (numPointsFor segC9.type : ℚ)))))) :=
  ⟨rfl, by decide, sampler_matches_coefficients segC9 [1, 2] rfl (by decide)⟩

lemma pointTerm_step (p q : ℚ) (l : PointLoad) (hpq : p < q) (hx : l.x ≤ p ∨ q ≤ l.x) :
    pointMomentTerm q l = pointMomentTerm p l + pointShearTerm p l * (q - p) := by
  rcases hx with h | h
  · have hq : l.x < q := lt_of_le_of_lt h hpq
    rcases lt_or_eq_of_le h with h' | h'
    · rw [pointMomentTerm, pointMomentTerm, pointShearTerm, if_pos hq, if_pos h', if_pos h]
      ring
    · subst h'
      rw [pointMomentTerm, pointMomentTerm, pointShearTerm, if_pos hq,
        if_neg (lt_irrefl l.x), if_pos (le_refl l.x)]
      ring
  · have h1 : ¬ l.x < q := not_lt.mpr h
    have h2 : ¬ l.x < p := not_lt.mpr (le_trans hpq.le h)
    have h3 : ¬ l.x ≤ p := not_le.mpr (lt_of_lt_of_le hpq h)
    rw [pointMomentTerm, pointMomentTerm, pointShearTerm, if_neg h1, if_neg h2, if_neg h3]
    ring

lemma angledTerm_step (tr : Trig) (p q : ℚ) (l : AngledLoad) (hpq : p < q)
    (hx : l.x ≤ p ∨ q ≤ l.x) :
    angledMomentTerm tr q l = angledMomentTerm tr p l + angledShearTerm tr p l * (q - p) := by
  rcases hx with h | h
  · have hq : l.x < q := lt_of_le_of_lt h hpq
    rcases lt_or_eq_of_le h with h' | h'
    · rw [angledMomentTerm, angledMomentTerm, angledShearTerm, if_pos hq, if_pos h', if_pos h]
      ring
    · subst h'
      rw [angledMomentTerm, angledMomentTerm, angledShearTerm, if_pos hq,
        if_neg (lt_irrefl l.x), if_pos (le_refl l.x)]
      ring
  · have h1 : ¬ l.x < q := not_lt.mpr h
    have h2 : ¬ l.x < p := not_lt.mpr (le_trans hpq.le h)
    have h3 : ¬ l.x ≤ p := not_le.mpr (lt_of_lt_of_le hpq h)
    rw [angledMomentTerm, angledMomentTerm, angledShearTerm, if_neg h1, if_neg h2, if_neg h3]
    ring

lemma momentLoadTerm_step (p q : ℚ) (l : MomentLoad) (hpq : p < q)
    (hx : l.x ≤ p ∨ q < l.x) :
    momentLoadTerm q l = momentLoadTerm p l := by
  rcases hx with h | h
  · rw [momentLoadTerm, momentLoadTerm, if_pos h, if_pos (le_trans h hpq.le)]
  · rw [momentLoadTerm, momentLoadTerm, if_neg (not_le.mpr h),
      if_neg (not_le.mpr (lt_trans hpq h))]

lemma reactTerm_step (p q : ℚ) (r : Reaction) (hpq : p < q)
    (hx : ∀ x, r.x = some x → (x ≤ p ∨ q ≤ x) ∧ (r.rtype = RType.momentR → (x ≤ p ∨ q < x))) :
    reactMomentTerm q r = reactMomentTerm p r + reactShearTerm p r * (q - p) := by
  cases hrx : r.x with
  | none =>
    cases hrt : r.rtype <;> simp [reactMomentTerm, reactShearTerm, hrx, hrt]
  | some x =>
    obtain ⟨hax, hmr⟩ := hx x hrx
    cases hrt : r.rtype with
    | vertical =>
      simp only [reactMomentTerm, reactShearTerm, hrx, hrt]
      rcases hax with h | h
      · have hq : x < q := lt_of_le_of_lt h hpq
        rcases lt_or_eq_of_le h with h' | h'
        · rw [if_pos hq, if_pos h', if_pos h]
          ring
        · subst h'
          rw [if_pos hq, if_neg (lt_irrefl x), if_pos (le_refl x)]
          ring
      · rw [if_neg (not_lt.mpr h), if_neg (not_lt.mpr (le_trans hpq.le h)),
          if_neg (not_le.mpr (lt_of_lt_of_le hpq h))]
        ring
    | momentR =>
      simp only [reactMomentTerm, reactShearTerm, hrx, hrt]
      rcases hmr hrt with h | h
      · rw [if_pos (le_trans h hpq.le), if_pos h]
        ring
      · rw [if_neg (not_le.mpr h), if_neg (not_le.mpr (lt_trans hpq h))]
        ring
    | horizontal =>
      simp [reactMomentTerm, reactShearTerm, hrx, hrt]

lemma udlTerm_step_inactive (p q : ℚ) (l : UDLLoad) (hpq : p < q) (hab : l.a < l.b)
    (halign : (l.a ≤ p ∧ q ≤ l.b) ∨ l.b ≤ p ∨ q ≤ l.a)
    (hinact : udlActive p q l = false) :
    udlMomentTerm q l = udlMomentTerm p l + udlShearTerm p l * (q - p) := by
  rw [udlActive] at hinact
  simp only [Bool.and_eq_false_iff, decide_eq_false_iff_not, not_lt] at hinact
  rcases halign with ⟨h1, h2⟩ | h | h
  · exfalso
    rcases hinact with h' | h'
    · exact absurd (lt_of_le_of_lt h1 hpq) (not_lt.mpr h')
    · exact absurd (lt_of_lt_of_le hpq h2) (not_lt.mpr h')
  · -- l.b ≤ p : both first branches
    have hq : l.b ≤ q := le_trans h hpq.le
    rw [udlMomentTerm, udlMomentTerm, udlShearTerm, if_pos hq, if_pos h, if_pos h]
    ring
  · -- q ≤ l.a : everything zero
    have hbq : ¬ l.b ≤ q := not_le.mpr (lt_of_le_of_lt h hab)
    have haq : ¬ (l.a < q ∧ q < l.b) := fun hc => absurd hc.1 (not_lt.mpr h)
    have hbp : ¬ l.b ≤ p := not_le.mpr (lt_trans (lt_of_lt_of_le hpq h) hab)
    have hap : ¬ l.a < p := not_lt.mpr (lt_of_lt_of_le hpq h).le
    have hapb : ¬ (l.a < p ∧ p < l.b) := fun hc => hap hc.1
    rw [udlMomentTerm, udlMomentTerm, udlShearTerm, if_neg hbq, if_neg haq, if_neg hbp,
      if_neg hapb, if_neg hbp, if_neg hap]
    ring

lemma udlTerm_step_active (p q : ℚ) (l : UDLLoad) (hpq : p < q) (hab : l.a < l.b)
    (hcov : l.a ≤ p ∧ q ≤ l.b) :
    udlMomentTerm q l = udlMomentTerm p l + udlShearTerm p l * (q - p)
      + -l.w / 2 * ((q - p) * (q - p)) := by
  obtain ⟨hap, hqb⟩ := hcov
  have hq_eval : udlMomentTerm q l = -(l.w * (q - l.a) * (q - l.a) / 2) := by
    rcases lt_or_eq_of_le hqb with h' | h'
    · rw [udlMomentTerm, if_neg (not_le.mpr h'),
        if_pos ⟨lt_of_le_of_lt hap hpq, h'⟩]
    · rw [udlMomentTerm, if_pos (le_of_eq h'.symm), h']
      ring
  have hp_eval : udlMomentTerm p l = -(l.w * (p - l.a) * (p - l.a) / 2) := by
    rcases lt_or_eq_of_le hap with h' | h'
    · rw [udlMomentTerm, if_neg (not_le.mpr (lt_of_lt_of_le hpq hqb)),
        if_pos ⟨h', lt_of_lt_of_le hpq hqb⟩]
    · rw [udlMomentTerm, if_neg (not_le.mpr (lt_of_lt_of_le hpq hqb)),
        if_neg (fun hc => absurd hc.1 (not_lt.mpr h'.ge)), ← h']
      ring
  have hs_eval : udlShearTerm p l = -(l.w * (p - l.a)) := by
    rcases lt_or_eq_of_le hap with h' | h'
    · rw [udlShearTerm, if_neg (not_le.mpr (lt_of_lt_of_le hpq hqb)), if_pos h']
    · rw [udlShearTerm, if_neg (not_le.mpr (lt_of_lt_of_le hpq hqb)),
        if_neg (not_lt.mpr h'.ge), ← h']
      ring
  rw [hq_eval, hp_eval, hs_eval]
  ring

lemma sum_map_step {α : Type} (L : List α) (f g h : α → ℚ) (c : ℚ)
    (he : ∀ l ∈ L, f l = g l + h l * c) :
    (L.map f).sum = (L.map g).sum + (L.map h).sum * c := by
  induction L with
  | nil => simp
  | cons x xs ih =>
    simp only [List.map_cons, List.sum_cons]
    rw [he x (List.mem_cons_self x xs), ih (fun l hl => he l (List.mem_cons_of_mem x hl))]
    ring

lemma sum_map_step_extra {α : Type} (L : List α) (pred : α → Bool) (f g h e : α → ℚ)
    (c : ℚ)
    (h0 : ∀ l ∈ L, pred l = false → f l = g l + h l * c)
    (h1 : ∀ l ∈ L, pred l = true → f l = g l + h l * c + e l) :
    (L.map f).sum = (L.map g).sum + (L.map h).sum * c + ((L.filter pred).map e).sum := by
  induction L with
  | nil => simp
  | cons x xs ih =>
    have ihx := ih (fun l hl hp => h0 l (List.mem_cons_of_mem x hl) hp)
      (fun l hl hp => h1 l (List.mem_cons_of_mem x hl) hp)
    simp only [List.map_cons, List.sum_cons, List.filter_cons]
    cases hx : pred x with
    | false =>
      simp only [Bool.false_eq_true, if_false]
      rw [h0 x (List.mem_cons_self x xs) hx, ihx]
      ring
    | true =>
      simp only [if_true]
      simp only [List.map_cons, List.sum_cons]
      rw [h1 x (List.mem_cons_self x xs) hx, ihx]
      ring

lemma uvlTerm_step_inactive (p q : ℚ) (l : UVLLoad) (hpq : p < q) (hab : l.a < l.b)
    (halign : (l.a ≤ p ∧ q ≤ l.b) ∨ l.b ≤ p ∨ q ≤ l.a)
    (hinact : uvlActive p q l = false) :
    uvlMomentTerm q l = uvlMomentTerm p l + uvlShearTerm p l * (q - p) := by
  rw [uvlActive] at hinact
  simp only [Bool.and_eq_false_iff, decide_eq_false_iff_not, not_lt] at hinact
  rcases halign with ⟨h1, h2⟩ | h | h
  · exfalso
    rcases hinact with h' | h'
    · exact absurd (lt_of_le_of_lt h1 hpq) (not_lt.mpr h')
    · exact absurd (lt_of_lt_of_le hpq h2) (not_lt.mpr h')
  · have hq : l.b ≤ q := le_trans h hpq.le
    rw [uvlMomentTerm, uvlMomentTerm, uvlShearTerm, if_pos hq, if_pos h, if_pos h]
    simp only []
    ring
  · have hbq : ¬ l.b ≤ q := not_le.mpr (lt_of_le_of_lt h hab)
    have haq : ¬ (l.a < q ∧ q < l.b) := fun hc => absurd hc.1 (not_lt.mpr h)
    have hbp : ¬ l.b ≤ p := not_le.mpr (lt_trans (lt_of_lt_of_le hpq h) hab)
    have hap : ¬ l.a < p := not_lt.mpr (lt_of_lt_of_le hpq h).le
    have hapb : ¬ (l.a < p ∧ p < l.b) := fun hc => hap hc.1
    rw [uvlMomentTerm, uvlMomentTerm, uvlShearTerm, if_neg hbq, if_neg haq, if_neg hbp,
      if_neg hapb, if_neg hbp, if_neg hap]
    ring

lemma centroid_branch_eq (w1 W la a : ℚ) (h : w1 + W ≠ 0) :
    -((w1 + W) * (a - la) / 2 * (a - (la + (a - la) * (w1 + 2 * W) / (3 * (w1 + W)))))
      = -(w1 * ((a - la) * (a - la)) / 2 + (W - w1) * ((a - la) * (a - la)) / 6) := by
  field_simp
  ring

lemma uvlTerm_step_active (p q : ℚ) (l : UVLLoad) (hpq : p < q) (hab : l.a < l.b)
    (hcov : l.a ≤ p ∧ q ≤ l.b)
    (hw12 : l.w1 + l.w2 ≠ 0)
    (hwp : l.a < p → l.w1 + (l.w1 + (l.w2 - l.w1) * (p - l.a) / (l.b - l.a)) ≠ 0)
    (hwq : q < l.b → l.w1 + (l.w1 + (l.w2 - l.w1) * (q - l.a) / (l.b - l.a)) ≠ 0) :
    uvlMomentTerm q l = uvlMomentTerm p l + uvlShearTerm p l * (q - p)
      + -(l.w1 + (l.w2 - l.w1) * ((p - l.a) / (l.b - l.a))) / 2 * ((q - p) * (q - p))
      + -((l.w1 + (l.w2 - l.w1) * ((q - l.a) / (l.b - l.a))
            - (l.w1 + (l.w2 - l.w1) * ((p - l.a) / (l.b - l.a)))) / (q - p) / 2) / 3
          * ((q - p) * ((q - p) * (q - p))) := by
  obtain ⟨hap, hqb⟩ := hcov
  have hL : l.b - l.a ≠ 0 := sub_ne_zero.mpr hab.ne'
  have hq_eval : uvlMomentTerm q l
      = -(l.w1 * ((q - l.a) * (q - l.a)) / 2
        + (l.w2 - l.w1) * ((q - l.a) * ((q - l.a) * (q - l.a))) / (6 * (l.b - l.a))) := by
    rcases lt_or_eq_of_le hqb with h' | h'
    · have haq : l.a < q := lt_of_le_of_lt hap hpq
      have hne := hwq h'
      rw [uvlMomentTerm, if_neg (not_le.mpr h'), if_pos ⟨haq, h'⟩]
      simp only []
      rw [centroid_branch_eq _ _ _ _ hne]
      field_simp
      ring
    · rw [uvlMomentTerm, if_pos (le_of_eq h'.symm)]
      simp only []
      rw [h']
      rw [centroid_branch_eq _ _ _ _ hw12]
      field_simp
      ring
  have hp_eval : uvlMomentTerm p l
      = -(l.w1 * ((p - l.a) * (p - l.a)) / 2
        + (l.w2 - l.w1) * ((p - l.a) * ((p - l.a) * (p - l.a))) / (6 * (l.b - l.a))) := by
    have hpb : p < l.b := lt_of_lt_of_le hpq hqb
    rcases lt_or_eq_of_le hap with h' | h'
    · have hne := hwp h'
      rw [uvlMomentTerm, if_neg (not_le.mpr hpb), if_pos ⟨h', hpb⟩]
      simp only []
      rw [centroid_branch_eq _ _ _ _ hne]
      field_simp
      ring
    · rw [uvlMomentTerm, if_neg (not_le.mpr hpb),
        if_neg (fun hc => absurd hc.1 (not_lt.mpr h'.ge)), ← h']
      ring
  have hs_eval : uvlShearTerm p l
      = -(l.w1 * (p - l.a)
        + (l.w2 - l.w1) * ((p - l.a) * (p - l.a)) / (2 * (l.b - l.a))) := by
    have hpb : p < l.b := lt_of_lt_of_le hpq hqb
    rcases lt_or_eq_of_le hap with h' | h'
    · rw [uvlShearTerm, if_neg (not_le.mpr hpb), if_pos h']
      simp only []
      field_simp
      ring
    · rw [uvlShearTerm, if_neg (not_le.mpr hpb), if_neg (not_lt.mpr h'.ge), ← h']
      ring
  rw [hq_eval, hp_eval, hs_eval]
  have hqp : q - p ≠ 0 := sub_ne_zero.mpr hpq.ne'
  field_simp
  ring

lemma udl_active_cov (p q : ℚ) (l : UDLLoad)
    (halign : (l.a ≤ p ∧ q ≤ l.b) ∨ l.b ≤ p ∨ q ≤ l.a)
    (hact : udlActive p q l = true) : l.a ≤ p ∧ q ≤ l.b := by
  rw [udlActive] at hact
  simp only [Bool.and_eq_true, decide_eq_true_eq] at hact
  rcases halign with h | h | h
  · exact h
  · exact absurd hact.2 (not_lt.mpr h)
  · exact absurd hact.1 (not_lt.mpr h)

lemma uvl_active_cov (p q : ℚ) (l : UVLLoad)
    (halign : (l.a ≤ p ∧ q ≤ l.b) ∨ l.b ≤ p ∨ q ≤ l.a)
    (hact : uvlActive p q l = true) : l.a ≤ p ∧ q ≤ l.b := by
  rw [uvlActive] at hact
  simp only [Bool.and_eq_true, decide_eq_true_eq] at hact
  rcases halign with h | h | h
  · exact h
  · exact absurd hact.2 (not_lt.mpr h)
  · exact absurd hact.1 (not_lt.mpr h)

lemma momentStartAt_step (tr : Trig) (loads : Loads) (reactions : List Reaction) (p q : ℚ)
    (hpq : p < q)
    (hpt : ∀ l ∈ loads.point, l.x ≤ p ∨ q ≤ l.x)
    (hang : ∀ l ∈ loads.angled, l.x ≤ p ∨ q ≤ l.x)
    (hmom : ∀ l ∈ loads.moment, l.x ≤ p ∨ q < l.x)
    (hre : ∀ r ∈ reactions, ∀ x, r.x = some x →
      (x ≤ p ∨ q ≤ x) ∧ (r.rtype = RType.momentR → (x ≤ p ∨ q < x)))
    (hudl : ∀ l ∈ loads.udl, l.a < l.b ∧ ((l.a ≤ p ∧ q ≤ l.b) ∨ l.b ≤ p ∨ q ≤ l.a))
    (huvl : ∀ l ∈ loads.uvl, l.a < l.b ∧ ((l.a ≤ p ∧ q ≤ l.b) ∨ l.b ≤ p ∨ q ≤ l.a))
    (huvldiv : ∀ l ∈ loads.uvl, l.w1 + l.w2 ≠ 0
      ∧ (l.a < p → l.w1 + (l.w1 + (l.w2 - l.w1) * (p - l.a) / (l.b - l.a)) ≠ 0)
      ∧ (q < l.b → l.w1 + (l.w1 + (l.w2 - l.w1) * (q - l.a) / (l.b - l.a)) ≠ 0)) :
    momentStartAt tr loads reactions q
      = momentStartAt tr loads reactions p
        + shearAt tr loads reactions p * (q - p)
        + ((loads.udl.filter (udlActive p q)).map
            (fun l => -l.w / 2 * ((q - p) * (q - p)))).sum
        + ((loads.uvl.filter (uvlActive p q)).map
            (fun l =>
              -(l.w1 + (l.w2 - l.w1) * ((p - l.a) / (l.b - l.a))) / 2 * ((q - p) * (q - p))
              + -((l.w1 + (l.w2 - l.w1) * ((q - l.a) / (l.b - l.a))
                    - (l.w1 + (l.w2 - l.w1) * ((p - l.a) / (l.b - l.a)))) / (q - p) / 2) / 3
                  * ((q - p) * ((q - p) * (q - p))))).sum := by
  have hreact := sum_map_step reactions (reactMomentTerm q) (reactMomentTerm p)
    (reactShearTerm p) (q - p) (fun r hr => reactTerm_step p q r hpq (hre r hr))
  have hpoint := sum_map_step loads.point (pointMomentTerm q) (pointMomentTerm p)
    (pointShearTerm p) (q - p) (fun l hl => pointTerm_step p q l hpq (hpt l hl))
  have hangled := sum_map_step loads.angled (angledMomentTerm tr q) (angledMomentTerm tr p)
    (angledShearTerm tr p) (q - p) (fun l hl => angledTerm_step tr p q l hpq (hang l hl))
  have hmoml : (loads.moment.map (momentLoadTerm q)).sum
      = (loads.moment.map (momentLoadTerm p)).sum := by
    rw [List.map_congr_left (fun l hl => momentLoadTerm_step p q l hpq (hmom l hl))]
  have hudls := sum_map_step_extra loads.udl (udlActive p q) (udlMomentTerm q)
    (udlMomentTerm p) (udlShearTerm p) (fun l => -l.w / 2 * ((q - p) * (q - p))) (q - p)
    (fun l hl hin => udlTerm_step_inactive p q l hpq (hudl l hl).1 (hudl l hl).2 hin)
    (fun l hl hact => by
      simp only []
      linear_combination udlTerm_step_active p q l hpq (hudl l hl).1
        (udl_active_cov p q l (hudl l hl).2 hact))
  have huvls := sum_map_step_extra loads.uvl (uvlActive p q) (uvlMomentTerm q)
    (uvlMomentTerm p) (uvlShearTerm p)
    (fun l =>
      -(l.w1 + (l.w2 - l.w1) * ((p - l.a) / (l.b - l.a))) / 2 * ((q - p) * (q - p))
      + -((l.w1 + (l.w2 - l.w1) * ((q - l.a) / (l.b - l.a))
            - (l.w1 + (l.w2 - l.w1) * ((p - l.a) / (l.b - l.a)))) / (q - p) / 2) / 3
          * ((q - p) * ((q - p) * (q - p)))) (q - p)
    (fun l hl hin => uvlTerm_step_inactive p q l hpq (huvl l hl).1 (huvl l hl).2 hin)
    (fun l hl hact => by
      simp only []
      linear_combination uvlTerm_step_active p q l hpq (huvl l hl).1
        (uvl_active_cov p q l (huvl l hl).2 hact) (huvldiv l hl).1 (huvldiv l hl).2.1
        (huvldiv l hl).2.2)
  rw [momentStartAt, momentStartAt, shearAt]
  rw [hreact, hpoint, hangled, hmoml, hudls, huvls]
  ring

lemma momentSegOf_Ma (tr : Trig) (loads : Loads) (reactions : List Reaction)
    (pv : (ℚ × ℚ) × DiagramSegment) :
    (momentSegOf tr loads reactions pv).M_a
      = some (momentStartAt tr loads reactions pv.1.1) := by
  cases h : pv.2.type <;> simp [momentSegOf, h]

lemma filter_eq_singleton_of_getLast {α : Type} (L : List α) (pred : α → Bool) (u : α)
    (hlen : (L.filter pred).length ≤ 1) (hlast : (L.filter pred).getLast? = some u) :
    L.filter pred = [u] := by
  have hne : L.filter pred ≠ [] := by
    intro h
    rw [h] at hlast
    simp at hlast
  have hpos : 1 ≤ (L.filter pred).length := List.length_pos.mpr hne
  obtain ⟨a, ha⟩ := List.length_eq_one.mp (le_antisymm hlen hpos)
  rw [ha] at hlast ⊢
  simp only [List.getLast?_singleton, Option.some.injEq] at hlast
  rw [hlast]

lemma momentSegOf_Mb (tr : Trig) (loads : Loads) (reactions : List Reaction) (p q : ℚ)
    (hpq : p < q)
    (hpt : ∀ l ∈ loads.point, l.x ≤ p ∨ q ≤ l.x)
    (hang : ∀ l ∈ loads.angled, l.x ≤ p ∨ q ≤ l.x)
    (hmom : ∀ l ∈ loads.moment, l.x ≤ p ∨ q < l.x)
    (hre : ∀ r ∈ reactions, ∀ x, r.x = some x →
      (x ≤ p ∨ q ≤ x) ∧ (r.rtype = RType.momentR → (x ≤ p ∨ q < x)))
    (hudl : ∀ l ∈ loads.udl, l.a < l.b ∧ ((l.a ≤ p ∧ q ≤ l.b) ∨ l.b ≤ p ∨ q ≤ l.a))
    (huvl : ∀ l ∈ loads.uvl, l.a < l.b ∧ ((l.a ≤ p ∧ q ≤ l.b) ∨ l.b ≤ p ∨ q ≤ l.a))
    (huvldiv : ∀ l ∈ loads.uvl, l.w1 + l.w2 ≠ 0
      ∧ (l.a < p → l.w1 + (l.w1 + (l.w2 - l.w1) * (p - l.a) / (l.b - l.a)) ≠ 0)
      ∧ (q < l.b → l.w1 + (l.w1 + (l.w2 - l.w1) * (q - l.a) / (l.b - l.a)) ≠ 0))
    (hone : (loads.udl.filter (udlActive p q)).length
      + (loads.uvl.filter (uvlActive p q)).length ≤ 1) :
    (momentSegOf tr loads reactions ((p, q), shearSegOf tr loads reactions (p, q))).M_b
      = some (momentStartAt tr loads reactions q) := by
  have hstep := momentStartAt_step tr loads reactions p q hpq hpt hang hmom hre hudl huvl
    huvldiv
  cases h1 : (loads.uvl.filter (uvlActive p q)).getLast? with
  | some u =>
    have huvl1 : loads.uvl.filter (uvlActive p q) = [u] :=
      filter_eq_singleton_of_getLast _ _ u (le_trans (Nat.le_add_left _ _) hone) h1
    have hudl0 : loads.udl.filter (udlActive p q) = [] := by
      refine List.length_eq_zero.mp ?_
      rw [huvl1] at hone
      simp only [List.length_singleton] at hone
      omega
    have humem : u ∈ loads.uvl ∧ uvlActive p q u = true := by
      have hm : u ∈ loads.uvl.filter (uvlActive p q) := by
        rw [huvl1]
        exact List.mem_singleton_self u
      exact ⟨(List.mem_filter.mp hm).1, (List.mem_filter.mp hm).2⟩
    have hcov : u.a ≤ p ∧ q ≤ u.b := uvl_active_cov p q u (huvl u humem.1).2 humem.2
    simp only [shearSegOf, h1, momentSegOf, coeffAt, Option.getD_some, List.getD_cons_zero,
      List.getD_cons_succ]
    simp only [max_eq_right hcov.1, min_eq_right hcov.2]
    rw [hstep, huvl1, hudl0]
    simp only [List.map_cons, List.map_nil, List.sum_cons, List.sum_nil]
    refine congrArg some ?_
    ring
  | none =>
    have huvl0 : loads.uvl.filter (uvlActive p q) = [] := List.getLast?_eq_none_iff.mp h1
    cases h2 : (loads.udl.filter (udlActive p q)).getLast? with
    | some u =>
      have hudl1 : loads.udl.filter (udlActive p q) = [u] :=
        filter_eq_singleton_of_getLast _ _ u (le_trans (Nat.le_add_right _ _) hone) h2
      simp only [shearSegOf, h1, h2, momentSegOf, coeffAt, Option.getD_some, List.getD_cons_zero,
        List.getD_cons_succ]
      rw [hstep, hudl1, huvl0]
      simp only [List.map_cons, List.map_nil, List.sum_cons, List.sum_nil]
      refine congrArg some ?_
      ring
    | none =>
      have hudl0 : loads.udl.filter (udlActive p q) = [] := List.getLast?_eq_none_iff.mp h2
      simp only [shearSegOf, h1, h2, momentSegOf, coeffAt, Option.getD_some, List.getD_cons_zero,
        List.getD_cons_succ]
      rw [hstep, hudl0, huvl0]
      simp only [List.map_nil, List.sum_nil]
      refine congrArg some ?_
      ring

lemma zip_self_map {α β : Type} (z : List α) (f : α → β) :
    z.zip (z.map f) = z.map (fun a => (a, f a)) := by
  induction z with
  | nil => rfl
  | cons x xs ih => simp only [List.map_cons, List.zip_cons_cons, ih]

/-- C3 (amended): for consecutive moment segments built by `calculateMomentSegments`
over adjacent event intervals (p,q),(q,r), the end value M_b of the first equals the
start value M_a of the second, provided: no point/angled load lies strictly inside
(p,q), no moment load lies in (p,q], reactions respect the interval likewise, every
distributed load spans the whole interval or misses its interior, at most one
distributed load is active on (p,q), and no UVL centroid denominator vanishes at p or
q. (With overlapping distributed loads the claim fails; see the counterexample.) -/
theorem moment_continuity_of_segments (tr : Trig) (loads : Loads)
    (reactions : List Reaction) (es : List ℚ) (L : ℚ) (i : ℕ) (p q : ℚ)
    (s1 s2 : DiagramSegment)
    (hp : es[i]? = some p) (hq : es[i + 1]? = some q) (hpq : p < q)
    (hpt : ∀ l ∈ loads.point, l.x ≤ p ∨ q ≤ l.x)
    (hang : ∀ l ∈ loads.angled, l.x ≤ p ∨ q ≤ l.x)
    (hmom : ∀ l ∈ loads.moment, l.x ≤ p ∨ q < l.x)
    (hre : ∀ r ∈ reactions, ∀ x, r.x = some x →
      (x ≤ p ∨ q ≤ x) ∧ (r.rtype = RType.momentR → (x ≤ p ∨ q < x)))
    (hudl : ∀ l ∈ loads.udl, l.a < l.b ∧ ((l.a ≤ p ∧ q ≤ l.b) ∨ l.b ≤ p ∨ q ≤ l.a))
    (huvl : ∀ l ∈ loads.uvl, l.a < l.b ∧ ((l.a ≤ p ∧ q ≤ l.b) ∨ l.b ≤ p ∨ q ≤ l.a))
    (huvldiv : ∀ l ∈ loads.uvl, l.w1 + l.w2 ≠ 0
      ∧ (l.a < p → l.w1 + (l.w1 + (l.w2 - l.w1) * (p - l.a) / (l.b - l.a)) ≠ 0)
      ∧ (q < l.b → l.w1 + (l.w1 + (l.w2 - l.w1) * (q - l.a) / (l.b - l.a)) ≠ 0))
    (hone : (loads.udl.filter (udlActive p q)).length
      + (loads.uvl.filter (uvlActive p q)).length ≤ 1)
    (hs1 : (calculateMomentSegments tr (calculateShearSegments tr loads reactions es L)
      loads reactions es L)[i]? = some s1)
    (hs2 : (calculateMomentSegments tr (calculateShearSegments tr loads reactions es L)
      loads reactions es L)[i + 1]? = some s2) :
    s1.M_b = s2.M_a := by
  have hrw : calculateMomentSegments tr (calculateShearSegments tr loads reactions es L)
      loads reactions es L
      = (es.zip es.tail).map (fun pr => momentSegOf tr loads reactions
          (pr, shearSegOf tr loads reactions pr)) := by
    rw [calculateMomentSegments, calculateShearSegments, zip_self_map, List.map_map]
    rfl
  rw [hrw, List.getElem?_map, Option.map_eq_some'] at hs1 hs2
  obtain ⟨z1, hz1, hF1⟩ := hs1
  obtain ⟨z2, hz2, hF2⟩ := hs2
  rw [List.getElem?_zip_eq_some] at hz1 hz2
  obtain ⟨hz1a, hz1b⟩ := hz1
  obtain ⟨hz2a, _⟩ := hz2
  rw [List.getElem?_tail] at hz1b
  have he1 : z1.1 = p := by
    rw [hp] at hz1a
    exact (Option.some.inj hz1a).symm
  have he2 : z1.2 = q := by
    rw [hq] at hz1b
    exact (Option.some.inj hz1b).symm
  have he3 : z2.1 = q := by
    rw [hq] at hz2a
    exact (Option.some.inj hz2a).symm
  have hz1pq : z1 = (p, q) := Prod.ext he1 he2
  rw [← hF2, momentSegOf_Ma, he3, ← hF1, hz1pq]
  exact momentSegOf_Mb tr loads reactions p q hpq hpt hang hmom hre hudl huvl huvldiv hone

theorem moment_continuity_of_segments_witness :
    ([(0 : ℚ), 1, 2][0]? = some 0) ∧ ([(0 : ℚ), 1, 2][1]? = some 1) ∧ ((0 : ℚ) < 1)
    ∧ (calculateMomentSegments zeroTrig
        (calculateShearSegments zeroTrig noLoads [] [0, 1, 2] 10)
        noLoads [] [0, 1, 2] 10)[0]? = some segC3a
    ∧ (calculateMomentSegments zeroTrig
        (calculateShearSegments zeroTrig noLoads [] [0, 1, 2] 10)
        noLoads [] [0, 1, 2] 10)[1]? = some segC3b
    ∧ segC3a.M_b = segC3b.M_a := by
  have hs1 : (calculateMomentSegments zeroTrig
      (calculateShearSegments zeroTrig noLoads [] [0, 1, 2] 10)
      noLoads [] [0, 1, 2] 10)[0]? = some segC3a := by
    norm_num [calculateMomentSegments, calculateShearSegments, momentSegOf, shearSegOf,
      momentStartAt, shearAt, coeffAt, noLoads, segC3a, List.zip]
  have hs2 : (calculateMomentSegments zeroTrig
      (calculateShearSegments zeroTrig noLoads [] [0, 1, 2] 10)
      noLoads [] [0, 1, 2] 10)[1]? = some segC3b := by
    norm_num [calculateMomentSegments, calculateShearSegments, momentSegOf, shearSegOf,
      momentStartAt, shearAt, coeffAt, noLoads, segC3b, List.zip]
  refine ⟨rfl, rfl, by norm_num, hs1, hs2, ?_⟩
  exact moment_continuity_of_segments zeroTrig noLoads [] [0, 1, 2] 10 0 0 1 segC3a segC3b
    rfl rfl (by norm_num) (by simp [noLoads]) (by simp [noLoads]) (by simp [noLoads])
    (by simp) (by simp [noLoads]) (by simp [noLoads]) (by simp [noLoads])
    (by simp [noLoads]) hs1 hs2
